import Mathlib

/-!
Verification development for a Dynamics 365 MCP tool server
(`src/utils/dynamics_client.py`, `src/tools/{accounts,contacts,leads,opportunities}.py`).

The Python code is shallowly embedded:

* JSON scalar values are `JVal`; Python dicts with string keys are ordered
  association lists (`Dict`), where `lookup?` models `d.get(k)` / `k in d`,
  `pyGet` models `d.get(k, default)`, and `getItem` models `d[k]`
  (raising `KeyError` on a missing key, modelled with `Except`).
* `requests` traffic is abstracted by an environment `Env` holding the
  outcome of `api_get` (an `Option` of the body's `value` list; `none` is a
  non-200 status or transport error, which `api_get` turns into `None`) and
  of `api_post`.  Each operation additionally returns the list of network
  calls it performed (`NetCall`), in order.  Bearer tokens are acquired
  exactly once per gateway call (inside `get_headers`), so an empty trace
  also means no token acquisition.
* Python truthiness (`if x:`) is `JVal.truthy` for JSON values and the
  `none`/empty-string test for `Optional[str]` arguments.
* `f"{x}"` interpolation of a JSON value is `JVal.pystr`.
-/

/-- A JSON scalar value as it appears in request/response bodies. -/
inductive JVal where
  | str : String → JVal
  | int : Int → JVal
  | bool : Bool → JVal
  | null : JVal
deriving DecidableEq, Repr

/-- A Python dict with string keys, as an insertion-ordered association list. -/
abbrev Dict := List (String × JVal)

/-- Python exceptions that the embedded code can raise. -/
inductive PyErr where
  | typeError : PyErr
  | keyError : String → PyErr
deriving DecidableEq, Repr

/-- `d.get(k)` / first binding of `k` (Python dicts hold each key once;
payloads built by overwriting keep the first position, which this lookup
respects because builders fold overwrites into the original binding). -/
def lookup? (d : Dict) (k : String) : Option JVal :=
  match d with
  | [] => none
  | (k', v) :: rest => if k' = k then some v else lookup? rest k

/-- `d.get(k, default)`. -/
def pyGet (d : Dict) (k : String) (default : JVal) : JVal :=
  (lookup? d k).getD default

/-- `d[k]`: raises `KeyError` when the key is absent. -/
def getItem (d : Dict) (k : String) : Except PyErr JVal :=
  match lookup? d k with
  | some v => Except.ok v
  | none => Except.error (PyErr.keyError k)

/-- Python truthiness of a JSON value. -/
def JVal.truthy : JVal → Bool
  | .str s => s ≠ ""
  | .int n => n ≠ 0
  | .bool b => b
  | .null => false

/-- `str(v)` as used by f-string interpolation. -/
def JVal.pystr : JVal → String
  | .str s => s
  | .int n => toString n
  | .bool b => if b then "True" else "False"
  | .null => "None"

/-- Truthiness of an `Optional[str]` argument (`if arg:`). -/
def strTruthy : Option String → Bool
  | some s => s ≠ ""
  | none => false

/-- Python `str.strip()` on the character list (leading whitespace drop). -/
def dropWS : List Char → List Char
  | [] => []
  | c :: t => if c.isWhitespace then dropWS t else c :: t

/-- Python `str.strip()`: drop leading whitespace, then drop what was
trailing whitespace via a reverse. -/
def pyStrip (s : String) : String :=
  ⟨(dropWS (dropWS s.data).reverse).reverse⟩

/-- Whether `needle` is a prefix of `hay` (character lists). -/
def startsWithList : List Char → List Char → Bool
  | [], _ => true
  | _ :: _, [] => false
  | a :: as, b :: bs => a = b && startsWithList as bs

/-- Whether `needle` occurs as a contiguous substring of `hay`:
the semantics of the OData `contains(field, term)` filter. -/
def hasSub (needle : List Char) : List Char → Bool
  | [] => startsWithList needle []
  | c :: t => startsWithList needle (c :: t) || hasSub needle t

/-- One network call issued through the gateway (each such call also
acquires a bearer token in `get_headers`). -/
inductive NetCall where
  | get : String → List (String × String) → NetCall
  | post : String → Dict → String → NetCall
deriving DecidableEq, Repr

/-- The remote side, as seen through the gateway:
`api e p` is the `value` list of the JSON body when `api_get` returns a
parsed body, `none` when it returns `None` (non-200 or transport error);
`post e d f` is the return value of `api_post` (the business id, or `None`).
-/
structure Env where
  api : String → List (String × String) → Option (List Dict)
  post : String → Dict → String → Option JVal

/-- `mapM` over `Except`, stopping at the first raised exception. -/
def exceptMap (f : α → Except PyErr β) : List α → Except PyErr (List β)
  | [] => Except.ok []
  | x :: xs =>
    match f x with
    | Except.error e => Except.error e
    | Except.ok y =>
      match exceptMap f xs with
      | Except.error e => Except.error e
      | Except.ok ys => Except.ok (y :: ys)

/-! ## Search operations (`search_accounts`, `search_contacts`,
`search_leads`, `search_leads_by_date`, opportunity searches) -/

/-- Query parameters built by `search_accounts`. -/
def searchAccountsParams (term : String) (maxResults : Nat) : List (String × String) :=
  [("$filter", "contains(name, \x27" ++ term ++ "\x27)"),
   ("$select", "accountid,name,emailaddress1,telephone1,address1_city,address1_country"),
   ("$orderby", "name"),
   ("$top", toString maxResults)]

/-- Query parameters built by `search_contacts`. -/
def searchContactsParams (term : String) (maxResults : Nat) : List (String × String) :=
  [("$filter", "contains(fullname, \x27" ++ term ++ "\x27)"),
   ("$select", "contactid,fullname,emailaddress1,telephone1,jobtitle,_parentcustomerid_value"),
   ("$orderby", "fullname"),
   ("$top", toString maxResults)]

/-- Query parameters built by `search_leads`. -/
def searchLeadsParams (term : String) (maxResults : Nat) : List (String × String) :=
  [("$filter", "contains(subject, \x27" ++ term ++ "\x27) or contains(firstname, \x27"
      ++ term ++ "\x27) or contains(lastname, \x27" ++ term ++ "\x27)"),
   ("$select", "leadid,subject,firstname,lastname,emailaddress1,telephone1,companyname,statuscode"),
   ("$orderby", "createdon desc"),
   ("$top", toString maxResults)]

/-- Query parameters built by `search_leads_by_date`. -/
def searchLeadsByDateParams (startDate endDate : String) (maxResults : Nat) :
    List (String × String) :=
  [("$filter", "createdon ge " ++ startDate ++ "T00:00:00Z and createdon le "
      ++ endDate ++ "T23:59:59Z"),
   ("$select", "leadid,subject,firstname,lastname,emailaddress1,telephone1,companyname,statuscode"),
   ("$orderby", "createdon desc"),
   ("$top", toString maxResults)]

/-- Query parameters built by `search_opportunities_by_name`
(`$top` is passed as the integer in the source; it is its decimal string
on the wire). -/
def searchOpportunitiesByNameParams (term : String) (maxResults : Nat) :
    List (String × String) :=
  [("$filter", "contains(name, \x27" ++ term ++ "\x27)"),
   ("$top", toString maxResults)]

/-- Query parameters built by `search_opportunities_by_date`. -/
def searchOpportunitiesByDateParams (startDate endDate : String) (maxResults : Nat) :
    List (String × String) :=
  [("$filter", "createdon ge " ++ startDate ++ " and createdon le " ++ endDate),
   ("$top", toString maxResults)]

/-- The formatted projection `search_accounts` builds from one raw record
(`account['accountid']` and `account['name']` are direct subscripts). -/
def accountFromRaw (raw : Dict) : Except PyErr Dict :=
  match getItem raw "accountid" with
  | Except.error e => Except.error e
  | Except.ok aid =>
    match getItem raw "name" with
    | Except.error e => Except.error e
    | Except.ok nm =>
      Except.ok [("account_id", aid), ("name", nm),
        ("email", pyGet raw "emailaddress1" JVal.null),
        ("phone", pyGet raw "telephone1" JVal.null),
        ("city", pyGet raw "address1_city" JVal.null),
        ("country", pyGet raw "address1_country" JVal.null),
        ("type", JVal.str "account")]

/-- The formatted projection `search_contacts` builds from one raw record. -/
def contactFromRaw (raw : Dict) : Except PyErr Dict :=
  match getItem raw "contactid" with
  | Except.error e => Except.error e
  | Except.ok cid =>
    match getItem raw "fullname" with
    | Except.error e => Except.error e
    | Except.ok fn =>
      Except.ok [("contact_id", cid), ("fullname", fn),
        ("email", pyGet raw "emailaddress1" JVal.null),
        ("phone", pyGet raw "telephone1" JVal.null),
        ("job_title", pyGet raw "jobtitle" JVal.null),
        ("parent_customer_id", pyGet raw "_parentcustomerid_value" JVal.null),
        ("type", JVal.str "contact")]

/-- The formatted projection `search_leads` builds from one raw record. -/
def leadFromRaw (raw : Dict) : Except PyErr Dict :=
  match getItem raw "leadid" with
  | Except.error e => Except.error e
  | Except.ok lid =>
    Except.ok [("lead_id", lid),
        ("subject", pyGet raw "subject" (JVal.str "")),
        ("full_name", JVal.str (pyStrip ((pyGet raw "firstname" (JVal.str "")).pystr ++ " "
            ++ (pyGet raw "lastname" (JVal.str "")).pystr))),
        ("company_name", pyGet raw "companyname" (JVal.str "")),
        ("email", pyGet raw "emailaddress1" JVal.null),
        ("phone", pyGet raw "telephone1" JVal.null),
        ("status", pyGet raw "statuscode" JVal.null),
        ("type", JVal.str "lead")]

/-- `leads = result.get('value', []) if result else []` followed by the
formatting loop of `search_leads`. -/
def leadsFrom (resp : Option (List Dict)) : Except PyErr (List Dict) :=
  exceptMap leadFromRaw (resp.getD [])

/-- Raw-to-projection step of `search_accounts`. -/
def accountsFrom (resp : Option (List Dict)) : Except PyErr (List Dict) :=
  exceptMap accountFromRaw (resp.getD [])

/-- Raw-to-projection step of `search_contacts`. -/
def contactsFrom (resp : Option (List Dict)) : Except PyErr (List Dict) :=
  exceptMap contactFromRaw (resp.getD [])

/-- `search_accounts`: one GET, then projection. -/
def searchAccounts (env : Env) (term : String) (maxResults : Nat) :
    List NetCall × Except PyErr (List Dict) :=
  let params := searchAccountsParams term maxResults
  ([NetCall.get "accounts" params], accountsFrom (env.api "accounts" params))

/-- `search_contacts`: one GET, then projection. -/
def searchContacts (env : Env) (term : String) (maxResults : Nat) :
    List NetCall × Except PyErr (List Dict) :=
  let params := searchContactsParams term maxResults
  ([NetCall.get "contacts" params], contactsFrom (env.api "contacts" params))

/-- `search_leads`: one GET, then projection. -/
def searchLeads (env : Env) (term : String) (maxResults : Nat) :
    List NetCall × Except PyErr (List Dict) :=
  let params := searchLeadsParams term maxResults
  ([NetCall.get "leads" params], leadsFrom (env.api "leads" params))

/-- `search_leads_by_date`: one GET with the date-range filter, then the
same projection as `search_leads`; no validation of either date string. -/
def searchLeadsByDate (env : Env) (startDate endDate : String) (maxResults : Nat) :
    List NetCall × Except PyErr (List Dict) :=
  let params := searchLeadsByDateParams startDate endDate maxResults
  ([NetCall.get "leads" params], leadsFrom (env.api "leads" params))

/-- `search_opportunities_by_name`: one GET, raw records returned as-is. -/
def searchOpportunitiesByName (env : Env) (term : String) (maxResults : Nat) :
    List NetCall × List Dict :=
  let params := searchOpportunitiesByNameParams term maxResults
  ([NetCall.get "opportunities" params], (env.api "opportunities" params).getD [])

/-- `search_opportunities_by_date`: one GET with the bare-date filter,
raw records returned as-is; no validation of either date string. -/
def searchOpportunitiesByDate (env : Env) (startDate endDate : String) (maxResults : Nat) :
    List NetCall × List Dict :=
  let params := searchOpportunitiesByDateParams startDate endDate maxResults
  ([NetCall.get "opportunities" params], (env.api "opportunities" params).getD [])

/-! ## Formatting functions -/

/-- `f"{sep}{d[k]}" if d.get(k) else ""` (the guarded info fragments of the
format functions; the subscript is evaluated only when the guard is truthy). -/
def guardedInfo (d : Dict) (k : String) (sep : String) : Except PyErr String :=
  if (pyGet d k JVal.null).truthy then
    (getItem d k).map (fun v => sep ++ v.pystr)
  else Except.ok ""

/-- The two output lines `format_leads_output` appends per lead. -/
def leadLines (lead : Dict) : Except PyErr String :=
  match guardedInfo lead "email" " | " with
  | Except.error e => Except.error e
  | Except.ok emailInfo =>
    match guardedInfo lead "phone" " | " with
    | Except.error e => Except.error e
    | Except.ok phoneInfo =>
      match guardedInfo lead "company_name" " | " with
      | Except.error e => Except.error e
      | Except.ok companyInfo =>
        match getItem lead "subject" with
        | Except.error e => Except.error e
        | Except.ok subj =>
          match getItem lead "full_name" with
          | Except.error e => Except.error e
          | Except.ok fullName =>
            match getItem lead "lead_id" with
            | Except.error e => Except.error e
            | Except.ok lid =>
              Except.ok ("  • " ++ subj.pystr ++ " (" ++ fullName.pystr ++ ")" ++ companyInfo
                ++ emailInfo ++ phoneInfo ++ "\n" ++ "    ID: " ++ lid.pystr)

/-- `format_leads_output`. -/
def formatLeadsOutput (leads : List Dict) : Except PyErr String :=
  match leads with
  | [] => Except.ok "No leads found matching your search criteria."
  | _ =>
    (exceptMap leadLines leads).map (fun ls =>
      String.intercalate "\n" (("Found " ++ toString leads.length ++ " leads:") :: ls))

/-- The location fragment of an account's output line
(`account.get('city', '')` / `account.get('country', '')`, stripped). -/
def accountLocationInfo (account : Dict) : String :=
  if (pyGet account "city" JVal.null).truthy || (pyGet account "country" JVal.null).truthy then
    let location := pyStrip ((pyGet account "city" (JVal.str "")).pystr ++ " "
        ++ (pyGet account "country" (JVal.str "")).pystr)
    if location ≠ "" then " | " ++ location else ""
  else ""

/-- The output line `format_accounts_output` appends per account
(note the missing space after the first `|`, as in the source). -/
def accountLine (account : Dict) : Except PyErr String :=
  match guardedInfo account "email" " |" with
  | Except.error e => Except.error e
  | Except.ok emailInfo =>
    match guardedInfo account "phone" " | " with
    | Except.error e => Except.error e
    | Except.ok phoneInfo =>
      match getItem account "name" with
      | Except.error e => Except.error e
      | Except.ok nm =>
        match getItem account "account_id" with
        | Except.error e => Except.error e
        | Except.ok aid =>
          Except.ok ("  • " ++ nm.pystr ++ " (ID: " ++ aid.pystr ++ ")" ++ emailInfo
            ++ phoneInfo ++ accountLocationInfo account)

/-- `format_accounts_output`. -/
def formatAccountsOutput (accounts : List Dict) : Except PyErr String :=
  match accounts with
  | [] => Except.ok "No accounts found matching your search criteria."
  | _ =>
    (exceptMap accountLine accounts).map (fun ls =>
      String.intercalate "\n" (("Found " ++ toString accounts.length ++ " accounts:") :: ls))

/-- The output line `format_contacts_output` appends per contact. -/
def contactLine (contact : Dict) : Except PyErr String :=
  match guardedInfo contact "email" " | " with
  | Except.error e => Except.error e
  | Except.ok emailInfo =>
    match guardedInfo contact "phone" " | " with
    | Except.error e => Except.error e
    | Except.ok phoneInfo =>
      match guardedInfo contact "job_title" " | " with
      | Except.error e => Except.error e
      | Except.ok jobInfo =>
        match getItem contact "fullname" with
        | Except.error e => Except.error e
        | Except.ok fn =>
          match getItem contact "contact_id" with
          | Except.error e => Except.error e
          | Except.ok cid =>
            Except.ok ("  • " ++ fn.pystr ++ " (ID: " ++ cid.pystr ++ ")" ++ jobInfo
              ++ emailInfo ++ phoneInfo)

/-- `format_contacts_output`. -/
def formatContactsOutput (contacts : List Dict) : Except PyErr String :=
  match contacts with
  | [] => Except.ok "No contacts found matching your search criteria."
  | _ =>
    (exceptMap contactLine contacts).map (fun ls =>
      String.intercalate "\n" (("Found " ++ toString contacts.length ++ " contacts:") :: ls))

/-! ## Create operations (`create_lead`, `create_opportunity`) -/

/-- Optional string field added under Python truthiness (`if arg:`). -/
def optStrField (k : String) (v : Option String) : Dict :=
  match v with
  | some s => if s ≠ "" then [(k, JVal.str s)] else []
  | none => []

/-- Optional integer field added under an `is not None` test. -/
def optIntField (k : String) (v : Option Int) : Dict :=
  match v with
  | some n => [(k, JVal.int n)]
  | none => []

/-- Optional boolean field added under an `is not None` test. -/
def optBoolField (k : String) (v : Option Bool) : Dict :=
  match v with
  | some b => [(k, JVal.bool b)]
  | none => []

/-- Optional string field added under an `is not None` test
(`xylos_salesdossierteams`: an empty string is still sent). -/
def optStrFieldNN (k : String) (v : Option String) : Dict :=
  match v with
  | some s => [(k, JVal.str s)]
  | none => []

/-- Foreign-key binding stored raw (`if resolved_id: data[k] = resolved_id`). -/
def bindField (k : String) (v : Option JVal) : Dict :=
  match v with
  | some j => if j.truthy then [(k, j)] else []
  | none => []

/-- Foreign-key binding stored as an `@odata.bind` path
(`if resolved_id: data[k] = f"/<entity_set>({resolved_id})"`). -/
def bindFieldStr (k : String) (pre : String) (v : Option JVal) : Dict :=
  match v with
  | some j => if j.truthy then [(k, JVal.str (pre ++ j.pystr ++ ")"))] else []
  | none => []

/-- `resolved_id = results[0]['<idKey>']` plus the
`print(f"Linked ...: {results[0]['<nameKey>']}")` subscript when the search
result list is non-empty; `None` when it is empty; search exceptions
propagate. -/
def resolveFrom (res : Except PyErr (List Dict)) (idKey nameKey : String) :
    Except PyErr (Option JVal) :=
  match res with
  | Except.error e => Except.error e
  | Except.ok [] => Except.ok none
  | Except.ok (first :: _) =>
    match getItem first idKey with
    | Except.error e => Except.error e
    | Except.ok rid =>
      match getItem first nameKey with
      | Except.error e => Except.error e
      | Except.ok _ => Except.ok (some rid)

/-- Arguments of `create_lead` (source defaults: every optional is `None`). -/
structure LeadArgs where
  subject : String
  firstname : String
  lastname : String
  companyname : String
  email : Option String := none
  phone : Option String := none
  mobilephone : Option String := none
  jobtitle : Option String := none
  websiteurl : Option String := none
  description : Option String := none
  estimatedclosedate : Option String := none
  xylos_leadsource : Option Int := none
  xylos_leadratingcode : Option Int := none
  parentaccountname : Option String := none
  parentcontactname : Option String := none
  xylos_gender : Option Int := none
  xylos_language : Option Int := none
  xylos_jobdescriptionid : Option String := none
  address1_line1 : Option String := none
  address1_postalcode : Option String := none
  address1_city : Option String := none
  address1_stateorprovince : Option String := none
  address1_country : Option String := none
deriving DecidableEq, Repr

/-- The `lead_data` dict sent by `create_lead`, given the two resolved
lookups, in the source's insertion order. -/
def leadPayload (a : LeadArgs) (ra rc : Option JVal) : Dict :=
  [("subject", JVal.str a.subject), ("firstname", JVal.str a.firstname),
   ("lastname", JVal.str a.lastname), ("companyname", JVal.str a.companyname)]
  ++ bindField "_parentaccountid_value" ra
  ++ bindField "_parentcontactid_value" rc
  ++ optStrField "emailaddress1" a.email
  ++ optStrField "telephone1" a.phone
  ++ optStrField "mobilephone" a.mobilephone
  ++ optStrField "jobtitle" a.jobtitle
  ++ optStrField "websiteurl" a.websiteurl
  ++ optStrField "description" a.description
  ++ optStrField "estimatedclosedate" a.estimatedclosedate
  ++ optIntField "xylos_leadsource" a.xylos_leadsource
  ++ optIntField "xylos_leadratingcode" a.xylos_leadratingcode
  ++ optIntField "xylos_gender" a.xylos_gender
  ++ optIntField "xylos_language" a.xylos_language
  ++ optStrField "_xylos_jobdescriptionid_value" a.xylos_jobdescriptionid
  ++ optStrField "address1_line1" a.address1_line1
  ++ optStrField "address1_postalcode" a.address1_postalcode
  ++ optStrField "address1_city" a.address1_city
  ++ optStrField "address1_stateorprovince" a.address1_stateorprovince
  ++ optStrField "address1_country" a.address1_country

/-- The early-rejection result of `create_lead` for an over-long subject. -/
def leadLengthFailure (subject : String) : Dict :=
  [("success", JVal.bool false),
   ("message", JVal.str ("Subject must be 40 characters or less. Current length: "
       ++ toString subject.length))]

/-- The failure result of `create_lead` when `api_post` returns `None`. -/
def leadPostFailure (subject : String) : Dict :=
  [("success", JVal.bool false),
   ("message", JVal.str ("Failed to create lead \x27" ++ subject ++ "\x27"))]

/-- The account-lookup step of `create_lead`
(`if parentaccountname: accounts = search_accounts(parentaccountname, 1) ...`). -/
def leadAccountStep (env : Env) (a : LeadArgs) : List NetCall × Except PyErr (Option JVal) :=
  if strTruthy a.parentaccountname then
    let s := searchAccounts env (a.parentaccountname.getD "") 1
    (s.1, resolveFrom s.2 "account_id" "name")
  else ([], Except.ok none)

/-- The contact-lookup step of `create_lead`. -/
def leadContactStep (env : Env) (a : LeadArgs) : List NetCall × Except PyErr (Option JVal) :=
  if strTruthy a.parentcontactname then
    let s := searchContacts env (a.parentcontactname.getD "") 1
    (s.1, resolveFrom s.2 "contact_id" "fullname")
  else ([], Except.ok none)

/-- The success result of `create_lead`. -/
def leadSuccess (subject : String) (lid : JVal) : Dict :=
  [("success", JVal.bool true), ("lead_id", lid),
   ("message", JVal.str ("Lead \x27" ++ subject ++ "\x27 created successfully"))]

/-- `create_lead`. -/
def createLead (env : Env) (a : LeadArgs) : List NetCall × Except PyErr Dict :=
  if a.subject.length > 40 then
    ([], Except.ok (leadLengthFailure a.subject))
  else
    match (leadAccountStep env a).2 with
    | Except.error e => ((leadAccountStep env a).1, Except.error e)
    | Except.ok ra =>
      match (leadContactStep env a).2 with
      | Except.error e =>
        ((leadAccountStep env a).1 ++ (leadContactStep env a).1, Except.error e)
      | Except.ok rc =>
        let payload := leadPayload a ra rc
        let result :=
          match env.post "leads" payload "xylos_leadidentifier" with
          | some v => if v.truthy then leadSuccess a.subject v else leadPostFailure a.subject
          | none => leadPostFailure a.subject
        ((leadAccountStep env a).1 ++ (leadContactStep env a).1
           ++ [NetCall.post "leads" payload "xylos_leadidentifier"],
         Except.ok result)

/-- Arguments of `create_opportunity` (source defaults: every optional is
`None`, including `description`). -/
structure OppArgs where
  name : String
  contract_verlengingen : Bool
  account_search_term : String
  contact_search_term : String
  description : Option String := none
  estimated_close_date : Option String := none
  xylos_contractverlenging : Option Bool := none
  sca_alreadyplanned : Option Bool := none
  xylos_bidoffice : Option Bool := none
  identifycustomercontacts : Option Bool := none
  opportunityratingcode : Option Int := none
  budgetstatus : Option Int := none
  xylos_opportunitytype : Option Int := none
  xylos_quotelanguage : Option Int := none
  xylos_opportunitysource : Option Int := none
  xylos_approach : Option Int := none
  need : Option Int := none
  purchaseprocess : Option Int := none
  xylos_salesdossierteams : Option String := none
  xylos_effectivefrom : Option String := none
  xylos_effectiveto : Option String := none
deriving DecidableEq, Repr

/-- The `data` dict sent by `create_opportunity` (for `description = some d`
past the length check).  The source seeds `xylos_contractverlenging` with the
required `contract_verlengingen` and later overwrites it in place when the
optional `xylos_contractverlenging` is not `None`; the overwrite keeps the
key's original dict position, which the folded value below reproduces. -/
def oppPayload (a : OppArgs) (d : String) (ra rc : Option JVal) : Dict :=
  [("name", JVal.str a.name), ("description", JVal.str d),
   ("xylos_contractverlenging",
     match a.xylos_contractverlenging with
     | some b => JVal.bool b
     | none => JVal.bool a.contract_verlengingen)]
  ++ optStrField "estimatedclosedate" a.estimated_close_date
  ++ optStrField "xylos_effectivefrom" a.xylos_effectivefrom
  ++ optStrField "xylos_effectiveto" a.xylos_effectiveto
  ++ optBoolField "sca_alreadyplanned" a.sca_alreadyplanned
  ++ optBoolField "xylos_bidoffice" a.xylos_bidoffice
  ++ optBoolField "identifycustomercontacts" a.identifycustomercontacts
  ++ optIntField "opportunityratingcode" a.opportunityratingcode
  ++ optIntField "budgetstatus" a.budgetstatus
  ++ optIntField "xylos_opportunitytype" a.xylos_opportunitytype
  ++ optIntField "xylos_quotelanguage" a.xylos_quotelanguage
  ++ optIntField "xylos_opportunitysource" a.xylos_opportunitysource
  ++ optIntField "xylos_approach" a.xylos_approach
  ++ optIntField "need" a.need
  ++ optIntField "purchaseprocess" a.purchaseprocess
  ++ optStrFieldNN "xylos_salesdossierteams" a.xylos_salesdossierteams
  ++ bindFieldStr "customerid_account@odata.bind" "/accounts(" ra
  ++ bindFieldStr "parentcontactid@odata.bind" "/contacts(" rc

/-- The early-rejection result of `create_opportunity` for an over-long
description (the message says "Subject", as in the source). -/
def oppLengthFailure (d : String) : Dict :=
  [("success", JVal.bool false),
   ("message", JVal.str ("Subject must be 40 characters or less. Current length: "
       ++ toString d.length))]

/-- The failure result of `create_opportunity` when `api_post` returns `None`. -/
def oppPostFailure (name : String) : Dict :=
  [("success", JVal.bool false),
   ("message", JVal.str ("Failed to create opportunity \x27" ++ name ++ "\x27"))]

/-- The success result of `create_opportunity` (Python `None` resolved ids
appear as JSON `null` values under their keys). -/
def oppSuccess (name : String) (oid : JVal) (ra rc : Option JVal) : Dict :=
  [("success", JVal.bool true), ("opportunity_id", oid),
   ("message", JVal.str ("Opportunity \x27" ++ name ++ "\x27 created successfully")),
   ("linked_account_id", ra.getD JVal.null),
   ("linked_contact_id", rc.getD JVal.null)]

/-- The account-lookup step of `create_opportunity` (the search term is a
required argument and the lookup is unconditional). -/
def oppAccountStep (env : Env) (a : OppArgs) : List NetCall × Except PyErr (Option JVal) :=
  let s := searchAccounts env a.account_search_term 1
  (s.1, resolveFrom s.2 "account_id" "name")

/-- The contact-lookup step of `create_opportunity`. -/
def oppContactStep (env : Env) (a : OppArgs) : List NetCall × Except PyErr (Option JVal) :=
  let s := searchContacts env a.contact_search_term 1
  (s.1, resolveFrom s.2 "contact_id" "fullname")

/-- `create_opportunity`.  Its first statement is `len(description) > 40`;
with the default `description=None` this is `len(None)` and raises
`TypeError` before anything else happens. -/
def createOpportunity (env : Env) (a : OppArgs) : List NetCall × Except PyErr Dict :=
  match a.description with
  | none => ([], Except.error PyErr.typeError)
  | some d =>
    if d.length > 40 then
      ([], Except.ok (oppLengthFailure d))
    else
      match (oppAccountStep env a).2 with
      | Except.error e => ((oppAccountStep env a).1, Except.error e)
      | Except.ok ra =>
        match (oppContactStep env a).2 with
        | Except.error e =>
          ((oppAccountStep env a).1 ++ (oppContactStep env a).1, Except.error e)
        | Except.ok rc =>
          let payload := oppPayload a d ra rc
          let result :=
            match env.post "opportunities" payload "xylos_opportunityid" with
            | some v => if v.truthy then oppSuccess a.name v ra rc else oppPostFailure a.name
            | none => oppPostFailure a.name
          ((oppAccountStep env a).1 ++ (oppContactStep env a).1
             ++ [NetCall.post "opportunities" payload "xylos_opportunityid"],
           Except.ok result)

/-! ## Token manager (`_load_cached_token`, `_save_token_cache`,
`_get_interactive_token`) -/

/-- The state of `token_cache.json`: missing, unparseable JSON (both flow
through the bare `except: pass` or the existence check), or a parsed object
with optional `expires_on` / `access_token` members. -/
inductive CacheFile where
  | absent : CacheFile
  | malformed : CacheFile
  | json : Option Int → Option String → CacheFile
deriving DecidableEq, Repr

/-- `_load_cached_token` at time `now`:
`cache_data.get('expires_on', 0) > time.time() + 300` guards
`cache_data['access_token']`; a `KeyError` there is swallowed by the bare
`except`, yielding `None`. -/
def loadCachedToken (now : Int) : CacheFile → Option String
  | CacheFile.absent => none
  | CacheFile.malformed => none
  | CacheFile.json eo tok => if eo.getD 0 > now + 300 then tok else none

/-- The MSAL `acquire_token_interactive` result. -/
structure FlowResult where
  access_token : Option String
  expires_in : Option Int
  error_description : Option String
deriving DecidableEq, Repr

/-- `_save_token_cache`: writes
`expires_on = time.time() + token_result.get('expires_in', 3600) - 300`
and the access token, overwriting the file. -/
def saveTokenCache (now : Int) (expiresIn : Option Int) (tok : String) : CacheFile :=
  CacheFile.json (some (now + expiresIn.getD 3600 - 300)) (some tok)

/-- The interactive-acquisition branch of `_get_interactive_token`
(`acquire_token_interactive`, then `_save_token_cache` on success, raising
on failure). -/
def runInteractiveFlow (now : Int) (flow : FlowResult) :
    Except String (String × CacheFile × Bool) :=
  match flow.access_token with
  | some t => Except.ok (t, saveTokenCache now flow.expires_in t, true)
  | none =>
    Except.error ("Interactive auth failed: "
      ++ flow.error_description.getD "Unknown error")

/-- `_get_interactive_token` at a single instant `now`: result is the
token, the cache file state afterwards, and whether the interactive flow
ran.  The source guards the cache hit with `if cached_token:`, Python
truthiness, so a cached *empty-string* token (like a missing one) falls
through to the interactive flow. -/
def getInteractiveToken (now : Int) (cache : CacheFile) (flow : FlowResult) :
    Except String (String × CacheFile × Bool) :=
  match loadCachedToken now cache with
  | some t => if t ≠ "" then Except.ok (t, cache, false) else runInteractiveFlow now flow
  | none => runInteractiveFlow now flow

/-! ## HTTP gateway create (`api_post`, `get_custom_entity_id`) -/

/-- A POST response as `api_post` sees it: the status code and
`response.headers.get('OData-EntityId', '')`. -/
structure PostResponse where
  status : Nat
  odataEntityId : String
deriving DecidableEq, Repr

/-- A GET response for the follow-up read (`none` at the call site models a
transport exception). -/
structure GetResponse where
  status : Nat
  body : Dict
deriving DecidableEq, Repr

/-- `re.search(r'\(([^)]+)\)', s)`: scanning left to right, the first
position where an `(` is followed by one or more non-`)` characters and
then a `)`; the captured group. -/
def scanGuid : List Char → Option String
  | [] => none
  | c :: t =>
    if c = '(' then
      let inner := t.takeWhile (fun x => x ≠ ')')
      if inner.length ≠ 0 ∧ inner.length < t.length then some ⟨inner⟩
      else scanGuid t
    else scanGuid t

/-- GUID extraction used by the live `api_post`. -/
def extractGuid (entityId : String) : Option String :=
  scanGuid entityId.data

/-- Modelled from the spec: the spec describes GUID extraction as "the
substring between the last `(` and `)`", i.e.
`entity_id.split('(')[-1].split(')')[0]` (the retired implementation kept
in a comment in the source).  Kept only to compare with `extractGuid`. -/
def lastParenGuid (entityId : String) : String :=
  ⟨((entityId.data.reverse.takeWhile (fun c => c ≠ '(')).reverse).takeWhile
      (fun c => c ≠ ')')⟩

/-- `get_custom_entity_id`: one GET on the GUID selecting only `idField`;
returns the field's value when the status is 200, the field is present and
truthy; `None` otherwise (transport errors are caught).  The first component
records the (guid, selected field) of the GET that was issued. -/
def getCustomEntityId (follow : String → Option GetResponse) (guid idField : String) :
    List (String × String) × Option JVal :=
  ([(guid, idField)],
   match follow guid with
   | none => none
   | some r =>
     if r.status = 200 then
       match lookup? r.body idField with
       | some v => if v.truthy then some v else none
       | none => none
     else none)

/-- `api_post` (given the POST already answered with `resp`): on 204 with a
non-empty `OData-EntityId` header whose first parenthesized group parses,
delegates to `get_custom_entity_id`; otherwise `None` with no follow-up GET. -/
def api_post (idField : String) (resp : PostResponse)
    (follow : String → Option GetResponse) : List (String × String) × Option JVal :=
  if resp.status = 204 then
    if resp.odataEntityId ≠ "" then
      match extractGuid resp.odataEntityId with
      | some g => getCustomEntityId follow g idField
      | none => ([], none)
    else ([], none)
  else ([], none)

/-! ## OData server model for entity resolution

The remote side of a resolution search is modelled by its OData contract:
filter the stored records by substring containment on the display-name
field, order by that field ascending, truncate at `$top`. -/

/-- Ascending character-list order (the server's alphabetical ordering). -/
def lexLe : List Char → List Char → Bool
  | [], _ => true
  | _ :: _, [] => false
  | a :: as, b :: bs =>
    if a.toNat < b.toNat then true
    else if b.toNat < a.toNat then false
    else lexLe as bs

/-- Ordering of records by a string projection. -/
def keyLe (key : α → String) (a b : α) : Prop :=
  lexLe (key a).data (key b).data = true

instance (key : α → String) : DecidableRel (keyLe key) :=
  fun a b => inferInstanceAs (Decidable (lexLe (key a).data (key b).data = true))

/-- A stored account record (the fields resolution touches). -/
structure AccountRec where
  accountid : String
  name : String
deriving DecidableEq, Repr

/-- The raw JSON record the server returns for an account. -/
def AccountRec.toRaw (a : AccountRec) : Dict :=
  [("accountid", JVal.str a.accountid), ("name", JVal.str a.name)]

/-- A stored contact record (the fields resolution touches). -/
structure ContactRec where
  contactid : String
  fullname : String
deriving DecidableEq, Repr

/-- The raw JSON record the server returns for a contact. -/
def ContactRec.toRaw (c : ContactRec) : Dict :=
  [("contactid", JVal.str c.contactid), ("fullname", JVal.str c.fullname)]

/-- The server's answer to `contains(<key>, term)` + `$orderby <key> asc` +
`$top top`. -/
def serverQuery (key : α → String) (db : List α) (term : String) (top : Nat) : List α :=
  (List.insertionSort (keyLe key) (db.filter (fun a => hasSub term.data (key a).data))).take top

/-- The account resolution a create call performs, run against the modelled
server: `search_accounts(term, max_results=1)` and then
`accounts[0]['account_id']` when non-empty. -/
def resolveAccountId (db : List AccountRec) (term : String) : Except PyErr (Option JVal) :=
  resolveFrom
    (accountsFrom (some ((serverQuery AccountRec.name db term 1).map AccountRec.toRaw)))
    "account_id" "name"

/-- Contact resolution against the modelled server. -/
def resolveContactId (db : List ContactRec) (term : String) : Except PyErr (Option JVal) :=
  resolveFrom
    (contactsFrom (some ((serverQuery ContactRec.fullname db term 1).map ContactRec.toRaw)))
    "contact_id" "fullname"

/-- An environment whose every GET yields the same response and whose every
POST fails. -/
def constApiEnv (r : Option (List Dict)) : Env :=
  { api := fun _ _ => r, post := fun _ _ _ => none }

/-! ### Order lemmas for the server model -/

theorem lexLe_refl (as : List Char) : lexLe as as = true := by
  induction as with
  | nil => rfl
  | cons a as ih => simp [lexLe, ih]

theorem lexLe_total (as bs : List Char) : lexLe as bs = true ∨ lexLe bs as = true := by
  induction as generalizing bs with
  | nil => left; rfl
  | cons a as ih =>
    cases bs with
    | nil => right; rfl
    | cons b bs =>
      simp only [lexLe]
      by_cases hab : a.toNat < b.toNat
      · left; simp [hab]
      · by_cases hba : b.toNat < a.toNat
        · right; simp [hba]
        · rcases ih bs with h | h
          · left; simp [hab, hba, h]
          · right; simp [hab, hba, h]

theorem lexLe_trans (as bs cs : List Char) (h1 : lexLe as bs = true)
    (h2 : lexLe bs cs = true) : lexLe as cs = true := by
  induction as generalizing bs cs with
  | nil => rfl
  | cons a as ih =>
    cases bs with
    | nil => simp [lexLe] at h1
    | cons b bs =>
      cases cs with
      | nil => simp [lexLe] at h2
      | cons c cs =>
        simp only [lexLe] at h1 h2 ⊢
        by_cases hab : a.toNat < b.toNat
        · by_cases hbc : b.toNat < c.toNat
          · have hac : a.toNat < c.toNat := Nat.lt_trans hab hbc
            simp [hac]
          · by_cases hcb : c.toNat < b.toNat
            · simp [hbc, hcb] at h2
            · have hac : a.toNat < c.toNat := by omega
              simp [hac]
        · by_cases hba : b.toNat < a.toNat
          · simp [hab, hba] at h1
          · simp only [hab, hba, if_false, if_neg] at h1
            by_cases hbc : b.toNat < c.toNat
            · have hac : a.toNat < c.toNat := by omega
              simp [hac]
            · by_cases hcb : c.toNat < b.toNat
              · simp [hbc, hcb] at h2
              · have hac1 : ¬ a.toNat < c.toNat := by omega
                have hac2 : ¬ c.toNat < a.toNat := by omega
                simp only [hbc, hcb, if_false, if_neg] at h2
                simp only [hac1, hac2, if_false, if_neg]
                exact ih bs cs (by simpa using h1) (by simpa using h2)

instance (key : α → String) : IsTotal α (keyLe key) :=
  ⟨fun a b => lexLe_total (key a).data (key b).data⟩

instance (key : α → String) : IsTrans α (keyLe key) :=
  ⟨fun a b c => lexLe_trans (key a).data (key b).data (key c).data⟩

/-- A minimal `create_lead` argument record (used to exercise theorems at a
concrete input). -/
def sampleLeadArgs : LeadArgs :=
  { subject := "s", firstname := "f", lastname := "l", companyname := "c" }

/-- A minimal `create_opportunity` argument record with a supplied
description (used to exercise theorems at a concrete input). -/
def sampleOppArgs : OppArgs :=
  { name := "N", contract_verlengingen := true, account_search_term := "A",
    contact_search_term := "C", description := some "d" }

/-- An environment where the account search matches nothing, the contact
search matches one record, and every POST succeeds with business id
"OPP-1" (used to exercise theorems at a concrete input). -/
def softFailEnv : Env :=
  { api := fun e _ =>
      if e = "accounts" then some []
      else some [[("contactid", JVal.str "c1"), ("fullname", JVal.str "Jane")]],
    post := fun _ _ _ => some (JVal.str "OPP-1") }

/-- An environment where the contact search matches nothing, the account
search matches one record, and every POST succeeds (used to exercise
theorems at a concrete input). -/
def contactMissEnv : Env :=
  { api := fun e _ =>
      if e = "contacts" then some []
      else some [[("accountid", JVal.str "a1"), ("name", JVal.str "Acme")]],
    post := fun _ _ _ => some (JVal.str "OPP-2") }

/-! ## Helper lemmas -/

theorem lookup?_eq_none_iff (d : Dict) (k : String) :
    lookup? d k = none ↔ ∀ v, (k, v) ∉ d := by
  induction d with
  | nil => simp [lookup?]
  | cons kv rest ih =>
    obtain ⟨k', v'⟩ := kv
    by_cases h : k' = k
    · subst h
      simp only [lookup?, if_pos rfl]
      constructor
      · intro h; cases h
      · intro h; exact absurd (List.mem_cons_self _ _) (h v')
    · simp only [lookup?, if_neg h, ih, List.mem_cons]
      constructor
      · intro hall v hv
        rcases hv with hv | hv
        · exact h (by cases hv; rfl)
        · exact hall v hv
      · intro hall v hv
        exact hall v (Or.inr hv)

theorem mem_optStrField (k k' : String) (o : Option String) (v : JVal) :
    (k', v) ∈ optStrField k o ↔ ∃ s, o = some s ∧ s ≠ "" ∧ k' = k ∧ v = JVal.str s := by
  cases o with
  | none => simp [optStrField]
  | some s =>
    by_cases hs : s = "" <;>
      simp [optStrField, hs, Prod.ext_iff]

theorem mem_optStrFieldNN (k k' : String) (o : Option String) (v : JVal) :
    (k', v) ∈ optStrFieldNN k o ↔ ∃ s, o = some s ∧ k' = k ∧ v = JVal.str s := by
  cases o with
  | none => simp [optStrFieldNN]
  | some s => simp [optStrFieldNN, Prod.ext_iff]

theorem mem_optIntField (k k' : String) (o : Option Int) (v : JVal) :
    (k', v) ∈ optIntField k o ↔ ∃ n, o = some n ∧ k' = k ∧ v = JVal.int n := by
  cases o with
  | none => simp [optIntField]
  | some n => simp [optIntField, Prod.ext_iff]

theorem mem_optBoolField (k k' : String) (o : Option Bool) (v : JVal) :
    (k', v) ∈ optBoolField k o ↔ ∃ b, o = some b ∧ k' = k ∧ v = JVal.bool b := by
  cases o with
  | none => simp [optBoolField]
  | some b => simp [optBoolField, Prod.ext_iff]

theorem mem_bindField (k k' : String) (o : Option JVal) (v : JVal) :
    (k', v) ∈ bindField k o ↔ ∃ j, o = some j ∧ j.truthy = true ∧ k' = k ∧ v = j := by
  cases o with
  | none => simp [bindField]
  | some j =>
    by_cases hj : j.truthy <;>
      simp [bindField, hj, Prod.ext_iff]

theorem mem_bindFieldStr (k pre k' : String) (o : Option JVal) (v : JVal) :
    (k', v) ∈ bindFieldStr k pre o ↔
      ∃ j, o = some j ∧ j.truthy = true ∧ k' = k ∧ v = JVal.str (pre ++ j.pystr ++ ")") := by
  cases o with
  | none => simp [bindFieldStr]
  | some j =>
    by_cases hj : j.truthy <;>
      simp [bindFieldStr, hj, Prod.ext_iff]

theorem exceptMap_ok_forall {f : α → Except PyErr β} {xs : List α} {ys : List β}
    (h : exceptMap f xs = Except.ok ys) : ∀ y ∈ ys, ∃ x ∈ xs, f x = Except.ok y := by
  induction xs generalizing ys with
  | nil =>
    simp only [exceptMap, Except.ok.injEq] at h
    subst h; simp
  | cons x xs ih =>
    simp only [exceptMap] at h
    cases hf : f x with
    | error e => rw [hf] at h; cases h
    | ok y0 =>
      rw [hf] at h
      cases hrest : exceptMap f xs with
      | error e => rw [hrest] at h; cases h
      | ok ys0 =>
        rw [hrest] at h
        cases h
        intro y hy
        rw [List.mem_cons] at hy
        rcases hy with hy | hy
        · subst hy; exact ⟨x, by simp, hf⟩
        · obtain ⟨x', hx', hfx'⟩ := ih hrest y hy
          exact ⟨x', by simp [hx'], hfx'⟩

theorem exceptMap_ok_of_all {f : α → Except PyErr β} {xs : List α}
    (h : ∀ x ∈ xs, ∃ y, f x = Except.ok y) : ∃ ys, exceptMap f xs = Except.ok ys := by
  induction xs with
  | nil => exact ⟨[], rfl⟩
  | cons x xs ih =>
    obtain ⟨y, hy⟩ := h x (by simp)
    obtain ⟨ys, hys⟩ := ih (fun x' hx' => h x' (by simp [hx']))
    exact ⟨y :: ys, by simp only [exceptMap, hy, hys]⟩

theorem leadAccountStep_fst (env : Env) (a : LeadArgs) :
    (leadAccountStep env a).1 =
      if strTruthy a.parentaccountname then
        [NetCall.get "accounts" (searchAccountsParams (a.parentaccountname.getD "") 1)]
      else [] := by
  unfold leadAccountStep searchAccounts
  split <;> rfl

theorem leadContactStep_fst (env : Env) (a : LeadArgs) :
    (leadContactStep env a).1 =
      if strTruthy a.parentcontactname then
        [NetCall.get "contacts" (searchContactsParams (a.parentcontactname.getD "") 1)]
      else [] := by
  unfold leadContactStep searchContacts
  split <;> rfl

theorem post_notMem_leadAccountStep (env : Env) (a : LeadArgs) (ep : String) (p : Dict)
    (f : String) : NetCall.post ep p f ∉ (leadAccountStep env a).1 := by
  rw [leadAccountStep_fst]; split <;> simp

theorem post_notMem_leadContactStep (env : Env) (a : LeadArgs) (ep : String) (p : Dict)
    (f : String) : NetCall.post ep p f ∉ (leadContactStep env a).1 := by
  rw [leadContactStep_fst]; split <;> simp

theorem oppAccountStep_fst (env : Env) (a : OppArgs) :
    (oppAccountStep env a).1 =
      [NetCall.get "accounts" (searchAccountsParams a.account_search_term 1)] := rfl

theorem oppContactStep_fst (env : Env) (a : OppArgs) :
    (oppContactStep env a).1 =
      [NetCall.get "contacts" (searchContactsParams a.contact_search_term 1)] := rfl

theorem post_notMem_oppAccountStep (env : Env) (a : OppArgs) (ep : String) (p : Dict)
    (f : String) : NetCall.post ep p f ∉ (oppAccountStep env a).1 := by
  rw [oppAccountStep_fst]; simp

theorem post_notMem_oppContactStep (env : Env) (a : OppArgs) (ep : String) (p : Dict)
    (f : String) : NetCall.post ep p f ∉ (oppContactStep env a).1 := by
  rw [oppContactStep_fst]; simp

theorem createLead_post_payload (env : Env) (a : LeadArgs) (ep : String) (p : Dict)
    (f : String) (h : NetCall.post ep p f ∈ (createLead env a).1) :
    ∃ ra rc, p = leadPayload a ra rc ∧ ep = "leads" ∧ f = "xylos_leadidentifier" := by
  unfold createLead at h
  by_cases hlen : a.subject.length > 40
  · rw [if_pos hlen] at h; simp at h
  · rw [if_neg hlen] at h
    cases hacc : (leadAccountStep env a).2 with
    | error e =>
      rw [hacc] at h
      exact absurd h (post_notMem_leadAccountStep env a ep p f)
    | ok ra =>
      rw [hacc] at h
      cases hcon : (leadContactStep env a).2 with
      | error e =>
        rw [hcon] at h
        rw [List.mem_append] at h
        rcases h with h | h
        · exact absurd h (post_notMem_leadAccountStep env a ep p f)
        · exact absurd h (post_notMem_leadContactStep env a ep p f)
      | ok rc =>
        rw [hcon] at h
        simp only [List.mem_append, List.mem_singleton] at h
        rcases h with (h | h) | h
        · exact absurd h (post_notMem_leadAccountStep env a ep p f)
        · exact absurd h (post_notMem_leadContactStep env a ep p f)
        · obtain ⟨hep, hp, hf⟩ := NetCall.post.inj h
          exact ⟨ra, rc, hp, hep, hf⟩

theorem createOpportunity_post_payload (env : Env) (a : OppArgs) (ep : String) (p : Dict)
    (f : String) (h : NetCall.post ep p f ∈ (createOpportunity env a).1) :
    ∃ d ra rc, a.description = some d ∧ p = oppPayload a d ra rc
      ∧ ep = "opportunities" ∧ f = "xylos_opportunityid" := by
  unfold createOpportunity at h
  cases hd : a.description with
  | none => rw [hd] at h; simp at h
  | some d =>
    rw [hd] at h
    dsimp only [] at h
    by_cases hlen : d.length > 40
    · rw [if_pos hlen] at h; simp at h
    · rw [if_neg hlen] at h
      cases hacc : (oppAccountStep env a).2 with
      | error e =>
        rw [hacc] at h
        exact absurd h (post_notMem_oppAccountStep env a ep p f)
      | ok ra =>
        rw [hacc] at h
        cases hcon : (oppContactStep env a).2 with
        | error e =>
          rw [hcon] at h
          rw [List.mem_append] at h
          rcases h with h | h
          · exact absurd h (post_notMem_oppAccountStep env a ep p f)
          · exact absurd h (post_notMem_oppContactStep env a ep p f)
        | ok rc =>
          rw [hcon] at h
          simp only [List.mem_append, List.mem_singleton] at h
          rcases h with (h | h) | h
          · exact absurd h (post_notMem_oppAccountStep env a ep p f)
          · exact absurd h (post_notMem_oppContactStep env a ep p f)
          · obtain ⟨hep, hp, hf⟩ := NetCall.post.inj h
            exact ⟨d, ra, rc, rfl, hp, hep, hf⟩

theorem stringAppend_assoc3 (a b c d : String) :
    ((a ++ b) ++ c) ++ d = a ++ (b ++ (c ++ d)) := by
  rw [String.append_assoc, String.append_assoc]

/-! ## Claim theorems -/

/-- C9: For every `start_date` and `end_date`, `search_leads_by_date` builds
the filter `createdon ge <start>T00:00:00Z and createdon le <end>T23:59:59Z`
while `search_opportunities_by_date` builds the bare-date filter
`createdon ge <start> and createdon le <end>`; neither validates that the
strings are ordered or parse as dates — every string pair is passed straight
through as the `$filter` of the single GET issued. -/
theorem c9_date_range_filter_passthrough (env : Env) (startDate endDate : String)
    (maxResults : Nat) :
    searchLeadsByDateParams startDate endDate maxResults =
      [("$filter", "createdon ge " ++ startDate ++ "T00:00:00Z and createdon le "
          ++ endDate ++ "T23:59:59Z"),
       ("$select",
        "leadid,subject,firstname,lastname,emailaddress1,telephone1,companyname,statuscode"),
       ("$orderby", "createdon desc"),
       ("$top", toString maxResults)]
  ∧ searchOpportunitiesByDateParams startDate endDate maxResults =
      [("$filter", "createdon ge " ++ startDate ++ " and createdon le " ++ endDate),
       ("$top", toString maxResults)]
  ∧ (searchLeadsByDate env startDate endDate maxResults).1 =
      [NetCall.get "leads" (searchLeadsByDateParams startDate endDate maxResults)]
  ∧ (searchOpportunitiesByDate env startDate endDate maxResults).1 =
      [NetCall.get "opportunities"
        (searchOpportunitiesByDateParams startDate endDate maxResults)] :=
  ⟨rfl, rfl, rfl, rfl⟩

/-- C8: For every entity type and every search input, a search that matches
zero server records (`value` list empty) or whose gateway call fails
(`api_get` returns `None`) returns an empty structured list — never null —
and the corresponding formatted report is the "No <type> found..." message. -/
theorem c8_zero_matches_empty_list (term startDate endDate : String) (maxResults : Nat) :
    (searchLeads (constApiEnv none) term maxResults).2 = Except.ok []
  ∧ (searchLeads (constApiEnv (some [])) term maxResults).2 = Except.ok []
  ∧ (searchLeadsByDate (constApiEnv none) startDate endDate maxResults).2 = Except.ok []
  ∧ (searchLeadsByDate (constApiEnv (some [])) startDate endDate maxResults).2 = Except.ok []
  ∧ (searchAccounts (constApiEnv none) term maxResults).2 = Except.ok []
  ∧ (searchAccounts (constApiEnv (some [])) term maxResults).2 = Except.ok []
  ∧ (searchContacts (constApiEnv none) term maxResults).2 = Except.ok []
  ∧ (searchContacts (constApiEnv (some [])) term maxResults).2 = Except.ok []
  ∧ (searchOpportunitiesByName (constApiEnv none) term maxResults).2 = []
  ∧ (searchOpportunitiesByName (constApiEnv (some [])) term maxResults).2 = []
  ∧ (searchOpportunitiesByDate (constApiEnv none) startDate endDate maxResults).2 = []
  ∧ (searchOpportunitiesByDate (constApiEnv (some [])) startDate endDate maxResults).2 = []
  ∧ formatLeadsOutput [] = Except.ok "No leads found matching your search criteria."
  ∧ formatAccountsOutput [] = Except.ok "No accounts found matching your search criteria."
  ∧ formatContactsOutput [] = Except.ok "No contacts found matching your search criteria." :=
  ⟨rfl, rfl, rfl, rfl, rfl, rfl, rfl, rfl, rfl, rfl, rfl, rfl, rfl, rfl, rfl⟩

/-- C2 (code bug): the spec requires every public tool operation to return a
string or structured result and never propagate a raw exception, in
particular `create_opportunity` with its default `description=None`.  The
code's first statement is `len(description) > 40`, which raises `TypeError`
on `None` before any other work, for every environment and every choice of
the required arguments. -/
theorem c2_createOpportunity_none_description_raises (env : Env) (name accTerm conTerm : String)
    (cv : Bool) :
    createOpportunity env
      { name := name, contract_verlengingen := cv,
        account_search_term := accTerm, contact_search_term := conTerm } =
      ([], Except.error PyErr.typeError) := rfl

/-- C3: a create call whose validated textual field (lead `subject`,
opportunity `description`) exceeds 40 characters returns a `success: false`
result whose message mentions the 40-character requirement, and performs no
network call at all (the empty trace also means no token acquisition, since
tokens are only acquired inside gateway calls). -/
theorem c3_length_check_rejects_before_network (env : Env) (a : LeadArgs) (b : OppArgs)
    (d : String) (ha : a.subject.length > 40) (hb : b.description = some d)
    (hd : d.length > 40) :
    createLead env a = ([], Except.ok (leadLengthFailure a.subject))
  ∧ createOpportunity env b = ([], Except.ok (oppLengthFailure d))
  ∧ lookup? (leadLengthFailure a.subject) "success" = some (JVal.bool false)
  ∧ lookup? (oppLengthFailure d) "success" = some (JVal.bool false)
  ∧ (∃ s1 s2, lookup? (leadLengthFailure a.subject) "message"
        = some (JVal.str (s1 ++ ("40" ++ s2))))
  ∧ (∃ s1 s2, lookup? (oppLengthFailure d) "message"
        = some (JVal.str (s1 ++ ("40" ++ s2)))) := by
  refine ⟨?_, ?_, rfl, rfl, ?_, ?_⟩
  · unfold createLead
    rw [if_pos ha]
  · unfold createOpportunity
    rw [hb]
    dsimp only []
    rw [if_pos hd]
  · refine ⟨"Subject must be ",
      " characters or less. Current length: " ++ toString a.subject.length, ?_⟩
    have : ("Subject must be 40 characters or less. Current length: "
          ++ toString a.subject.length)
        = "Subject must be " ++ ("40" ++ (" characters or less. Current length: "
          ++ toString a.subject.length)) := by
      rw [← stringAppend_assoc3]
      rfl
    rw [leadLengthFailure, this]
    rfl
  · refine ⟨"Subject must be ",
      " characters or less. Current length: " ++ toString d.length, ?_⟩
    have : ("Subject must be 40 characters or less. Current length: " ++ toString d.length)
        = "Subject must be " ++ ("40" ++ (" characters or less. Current length: "
          ++ toString d.length)) := by
      rw [← stringAppend_assoc3]
      rfl
    rw [oppLengthFailure, this]
    rfl

theorem c3_length_check_rejects_before_network_witness :
    createLead (constApiEnv none)
      { subject := "01234567890123456789012345678901234567890", firstname := "f",
        lastname := "l", companyname := "c" } =
      ([], Except.ok (leadLengthFailure "01234567890123456789012345678901234567890"))
  ∧ createOpportunity (constApiEnv none)
      { name := "N", contract_verlengingen := true, account_search_term := "A",
        contact_search_term := "C",
        description := some "01234567890123456789012345678901234567890" } =
      ([], Except.ok (oppLengthFailure "01234567890123456789012345678901234567890")) := by
  have h := c3_length_check_rejects_before_network (constApiEnv none)
    { subject := "01234567890123456789012345678901234567890", firstname := "f",
      lastname := "l", companyname := "c" }
    { name := "N", contract_verlengingen := true, account_search_term := "A",
      contact_search_term := "C",
      description := some "01234567890123456789012345678901234567890" }
    "01234567890123456789012345678901234567890" (by decide) rfl (by decide)
  exact ⟨h.1, h.2.1⟩

/-- C6 counterexample: with an empty cache at time 1000 and an interactive
flow returning token "T" with `expires_in = 3600`, the cache entry written
is `expires_on = 4300 = now + expires_in - 300`, not the token's absolute
expiry time `now + expires_in = 4600` as the claim states. -/
theorem c6_counterexample_persisted_expiry :
    getInteractiveToken 1000 CacheFile.absent
      { access_token := some "T", expires_in := some 3600, error_description := none } =
      Except.ok ("T", CacheFile.json (some 4300) (some "T"), true)
  ∧ (4300 : Int) ≠ 1000 + 3600 :=
  ⟨rfl, by decide⟩

/-- C6 (amended): under the interactive strategy, the cached token is
returned without triggering a new interactive flow if and only if the cache
file parses, holds a *non-empty* access token (`if cached_token:` is Python
truthiness), and its stored expiry is more than 5 minutes (300 s) in the
future; otherwise a new interactive flow runs and the resulting access
token is persisted together with an expiry timestamp set 300 seconds
*before* its absolute expiry (`now + expires_in - 300`), overwriting any
prior entry. -/
theorem c6_interactive_token_caching (now : Int) (cache : CacheFile) (flow : FlowResult)
    (t : String) (ei : Int) (hnow : 0 ≤ now)
    (hat : flow.access_token = some t) (hei : flow.expires_in = some ei) :
    (∀ eo tok, cache = CacheFile.json (some eo) (some tok) → tok ≠ "" → now + 300 < eo →
        getInteractiveToken now cache flow = Except.ok (tok, cache, false))
  ∧ (strTruthy (loadCachedToken now cache) = false →
        getInteractiveToken now cache flow =
          Except.ok (t, CacheFile.json (some (now + ei - 300)) (some t), true))
  ∧ (strTruthy (loadCachedToken now cache) = false ↔
        ¬ ∃ eo tok, cache = CacheFile.json (some eo) (some tok) ∧ tok ≠ "" ∧
          now + 300 < eo) := by
  refine ⟨?_, ?_, ?_⟩
  · intro eo tok hc htok hlt
    subst hc
    unfold getInteractiveToken loadCachedToken
    simp [hlt, htok]
  · intro hmiss
    have hrun : runInteractiveFlow now flow =
        Except.ok (t, CacheFile.json (some (now + ei - 300)) (some t), true) := by
      unfold runInteractiveFlow
      rw [hat]
      unfold saveTokenCache
      rw [hei]
      rfl
    cases hl : loadCachedToken now cache with
    | none =>
      unfold getInteractiveToken
      rw [hl]
      exact hrun
    | some t2 =>
      have ht2 : t2 = "" := by
        rw [hl] at hmiss
        simpa [strTruthy] using hmiss
      subst ht2
      unfold getInteractiveToken
      rw [hl]
      exact hrun
  · cases cache with
    | absent =>
      constructor
      · rintro - ⟨eo, tok, heq, -, -⟩
        cases heq
      · intro h
        rfl
    | malformed =>
      constructor
      · rintro - ⟨eo, tok, heq, -, -⟩
        cases heq
      · intro h
        rfl
    | json eo tok =>
      cases eo with
      | none =>
        have h0 : ¬ ((0 : Int) > now + 300) := by omega
        have hl : loadCachedToken now (CacheFile.json none tok) = none := by
          show (if (0 : Int) > now + 300 then tok else none) = none
          rw [if_neg h0]
        rw [hl]
        constructor
        · rintro - ⟨eo2, tok2, heq, -, -⟩
          obtain ⟨h1, -⟩ := CacheFile.json.inj heq
          cases h1
        · intro h
          rfl
      | some e =>
        cases tok with
        | none =>
          have hl : loadCachedToken now (CacheFile.json (some e) none) = none := by
            show (if e > now + 300 then (none : Option String) else none) = none
            exact ite_self none
          rw [hl]
          constructor
          · rintro - ⟨eo2, tok2, heq, -, -⟩
            obtain ⟨-, h2⟩ := CacheFile.json.inj heq
            cases h2
          · intro h
            rfl
        | some t2 =>
          by_cases he : now + 300 < e
          · have hl : loadCachedToken now (CacheFile.json (some e) (some t2)) = some t2 := by
              show (if e > now + 300 then some t2 else none) = some t2
              rw [if_pos (show e > now + 300 by simpa using he)]
            rw [hl]
            by_cases ht : t2 = ""
            · subst ht
              constructor
              · rintro - ⟨eo2, tok2, heq, htok, -⟩
                obtain ⟨-, h2⟩ := CacheFile.json.inj heq
                obtain rfl := Option.some.inj h2
                exact htok rfl
              · intro h
                rfl
            · constructor
              · intro hmiss
                exfalso
                exact ht (by simpa [strTruthy] using hmiss)
              · intro h
                exfalso
                exact h ⟨e, t2, rfl, ht, he⟩
          · have hl : loadCachedToken now (CacheFile.json (some e) (some t2)) = none := by
              show (if e > now + 300 then some t2 else none) = none
              rw [if_neg (show ¬ (e > now + 300) by simpa using he)]
            rw [hl]
            constructor
            · rintro - ⟨eo2, tok2, heq, -, hlt⟩
              obtain ⟨h1, -⟩ := CacheFile.json.inj heq
              obtain rfl := Option.some.inj h1
              exact he hlt
            · intro h
              rfl

theorem c6_interactive_token_caching_witness :
    getInteractiveToken 1000 (CacheFile.json (some 5000) (some "C"))
      { access_token := some "T", expires_in := some 3600, error_description := none } =
      Except.ok ("C", CacheFile.json (some 5000) (some "C"), false)
  ∧ getInteractiveToken 1000 (CacheFile.json (some 9999) (some ""))
      { access_token := some "T", expires_in := some 3600, error_description := none } =
      Except.ok ("T", CacheFile.json (some 4300) (some "T"), true) := by
  have h1 := c6_interactive_token_caching 1000 (CacheFile.json (some 5000) (some "C"))
    { access_token := some "T", expires_in := some 3600, error_description := none }
    "T" 3600 (by decide) rfl rfl
  have h2 := c6_interactive_token_caching 1000 (CacheFile.json (some 9999) (some ""))
    { access_token := some "T", expires_in := some 3600, error_description := none }
    "T" 3600 (by decide) rfl rfl
  exact ⟨h1.1 5000 "C" rfl (by decide) (by decide), h2.2.1 rfl⟩

/-- C1 counterexample: the live `api_post` extracts the *first*
parenthesized group of the `OData-EntityId` header (`re.search`), not the
substring between the last `(` and `)` as the claim states.  On the header
`a(b)c(d)` the code GETs GUID `b` and returns that record's field, whereas
the claim's last-paren rule names GUID `d`. -/
theorem c1_counterexample_first_not_last_paren :
    api_post "idf" ⟨204, "a(b)c(d)"⟩
      (fun g => if g = "b" then some ⟨200, [("idf", JVal.str "B")]⟩
                else some ⟨200, [("idf", JVal.str "D")]⟩) =
      ([("b", "idf")], some (JVal.str "B"))
  ∧ lastParenGuid "a(b)c(d)" = "d"
  ∧ extractGuid "a(b)c(d)" = some "b"
  ∧ (([("b", "idf")], some (JVal.str "B")) :
        List (String × String) × Option JVal) ≠ ([("d", "idf")], some (JVal.str "D")) :=
  ⟨rfl, rfl, rfl, by decide⟩

/-- C1 (amended): for every gateway create, if the POST status is 204 and the
created record's GUID parses from the `OData-EntityId` header as the *first*
parenthesized group (`re.search` of `\(([^)]+)\)`), exactly one additional
GET selecting only the given id field is performed on that GUID and the
value of that field is returned when the GET succeeds with HTTP 200 and the
field is present and truthy; if the status is not 204, or the GUID cannot be
parsed (header absent/empty or no parenthesized group), null is returned
with no follow-up GET; if the follow-up GET fails, has a non-200 status, or
the field is absent or falsy, null is returned. -/
theorem c1_create_roundtrip (idField : String) (resp : PostResponse)
    (follow : String → Option GetResponse) :
    (resp.status ≠ 204 → api_post idField resp follow = ([], none))
  ∧ (extractGuid resp.odataEntityId = none → api_post idField resp follow = ([], none))
  ∧ (∀ g, resp.status = 204 → extractGuid resp.odataEntityId = some g →
        (api_post idField resp follow).1 = [(g, idField)]
      ∧ (follow g = none → (api_post idField resp follow).2 = none)
      ∧ (∀ r, follow g = some r → r.status ≠ 200 → (api_post idField resp follow).2 = none)
      ∧ (∀ r, follow g = some r → r.status = 200 → lookup? r.body idField = none →
            (api_post idField resp follow).2 = none)
      ∧ (∀ r v, follow g = some r → r.status = 200 → lookup? r.body idField = some v →
            (api_post idField resp follow).2 = (if v.truthy then some v else none))) := by
  refine ⟨?_, ?_, ?_⟩
  · intro h
    unfold api_post
    rw [if_neg h]
  · intro h
    unfold api_post
    by_cases h204 : resp.status = 204
    · rw [if_pos h204]
      by_cases hid : resp.odataEntityId ≠ ""
      · rw [if_pos hid, h]
      · rw [if_neg hid]
    · rw [if_neg h204]
  · intro g h204 hg
    have hne : resp.odataEntityId ≠ "" := by
      intro he
      rw [he] at hg
      simp [extractGuid, scanGuid] at hg
    have happ : api_post idField resp follow = getCustomEntityId follow g idField := by
      unfold api_post
      rw [if_pos h204, if_pos hne, hg]
    refine ⟨?_, ?_, ?_, ?_, ?_⟩
    · rw [happ]; rfl
    · intro hf
      rw [happ]
      simp [getCustomEntityId, hf]
    · intro r hf hs
      rw [happ]
      simp [getCustomEntityId, hf, hs]
    · intro r hf hs hl
      rw [happ]
      simp [getCustomEntityId, hf, hs, hl]
    · intro r v hf hs hl
      rw [happ]
      simp [getCustomEntityId, hf, hs, hl]

theorem c1_create_roundtrip_witness :
    (api_post "idf" ⟨204, "https://x/api/data/v9.2/leads(42)"⟩
        (fun _ => some ⟨200, [("idf", JVal.str "LEAD-042")]⟩)).1 = [("42", "idf")]
  ∧ (api_post "idf" ⟨204, "https://x/api/data/v9.2/leads(42)"⟩
        (fun _ => some ⟨200, [("idf", JVal.str "LEAD-042")]⟩)).2 =
      some (JVal.str "LEAD-042") := by
  have h := (c1_create_roundtrip "idf" ⟨204, "https://x/api/data/v9.2/leads(42)"⟩
      (fun _ => some ⟨200, [("idf", JVal.str "LEAD-042")]⟩)).2.2 "42" rfl rfl
  refine ⟨h.1, ?_⟩
  have h5 := h.2.2.2.2 ⟨200, [("idf", JVal.str "LEAD-042")]⟩ (JVal.str "LEAD-042") rfl rfl rfl
  rw [h5]
  rfl

/-! ## Payload key universes and subset lemmas (for C5) -/

/-- Every key `create_lead` can ever place in its payload. -/
def leadPayloadKeys : List String :=
  ["subject", "firstname", "lastname", "companyname",
   "_parentaccountid_value", "_parentcontactid_value",
   "emailaddress1", "telephone1", "mobilephone", "jobtitle", "websiteurl",
   "description", "estimatedclosedate", "xylos_leadsource", "xylos_leadratingcode",
   "xylos_gender", "xylos_language", "_xylos_jobdescriptionid_value",
   "address1_line1", "address1_postalcode", "address1_city",
   "address1_stateorprovince", "address1_country"]

/-- Every key `create_opportunity` can ever place in its payload. -/
def oppPayloadKeys : List String :=
  ["name", "description", "xylos_contractverlenging",
   "estimatedclosedate", "xylos_effectivefrom", "xylos_effectiveto",
   "sca_alreadyplanned", "xylos_bidoffice", "identifycustomercontacts",
   "opportunityratingcode", "budgetstatus", "xylos_opportunitytype",
   "xylos_quotelanguage", "xylos_opportunitysource", "xylos_approach",
   "need", "purchaseprocess", "xylos_salesdossierteams",
   "customerid_account@odata.bind", "parentcontactid@odata.bind"]

theorem keys_append {P : String → Prop} {d1 d2 : Dict}
    (h1 : ∀ kv ∈ d1, P kv.1) (h2 : ∀ kv ∈ d2, P kv.1) :
    ∀ kv ∈ d1 ++ d2, P kv.1 := by
  intro kv h
  rw [List.mem_append] at h
  rcases h with h | h
  · exact h1 kv h
  · exact h2 kv h

theorem keys_nil {P : String → Prop} : ∀ kv ∈ ([] : Dict), P kv.1 := by
  intro kv h
  cases h

theorem keys_cons {P : String → Prop} {k : String} {v : JVal} {d : Dict}
    (hk : P k) (hd : ∀ kv ∈ d, P kv.1) : ∀ kv ∈ (k, v) :: d, P kv.1 := by
  intro kv h
  rw [List.mem_cons] at h
  rcases h with h | h
  · subst h; exact hk
  · exact hd kv h

theorem keys_optStrField {P : String → Prop} {k : String} {o : Option String} (hk : P k) :
    ∀ kv ∈ optStrField k o, P kv.1 := by
  intro ⟨k', v⟩ h
  rw [mem_optStrField] at h
  obtain ⟨s, -, -, hk', -⟩ := h
  subst hk'; exact hk

theorem keys_optStrFieldNN {P : String → Prop} {k : String} {o : Option String} (hk : P k) :
    ∀ kv ∈ optStrFieldNN k o, P kv.1 := by
  intro ⟨k', v⟩ h
  rw [mem_optStrFieldNN] at h
  obtain ⟨s, -, hk', -⟩ := h
  subst hk'; exact hk

theorem keys_optIntField {P : String → Prop} {k : String} {o : Option Int} (hk : P k) :
    ∀ kv ∈ optIntField k o, P kv.1 := by
  intro ⟨k', v⟩ h
  rw [mem_optIntField] at h
  obtain ⟨n, -, hk', -⟩ := h
  subst hk'; exact hk

theorem keys_optBoolField {P : String → Prop} {k : String} {o : Option Bool} (hk : P k) :
    ∀ kv ∈ optBoolField k o, P kv.1 := by
  intro ⟨k', v⟩ h
  rw [mem_optBoolField] at h
  obtain ⟨b, -, hk', -⟩ := h
  subst hk'; exact hk

theorem keys_bindField {P : String → Prop} {k : String} {o : Option JVal} (hk : P k) :
    ∀ kv ∈ bindField k o, P kv.1 := by
  intro ⟨k', v⟩ h
  rw [mem_bindField] at h
  obtain ⟨j, -, -, hk', -⟩ := h
  subst hk'; exact hk

theorem keys_bindFieldStr {P : String → Prop} {k pre : String} {o : Option JVal} (hk : P k) :
    ∀ kv ∈ bindFieldStr k pre o, P kv.1 := by
  intro ⟨k', v⟩ h
  rw [mem_bindFieldStr] at h
  obtain ⟨j, -, -, hk', -⟩ := h
  subst hk'; exact hk

theorem leadPayload_keys_mem (a : LeadArgs) (ra rc : Option JVal) :
    ∀ kv ∈ leadPayload a ra rc, kv.1 ∈ leadPayloadKeys := by
  unfold leadPayload
  refine keys_append ?_ (keys_optStrField (by decide))
  refine keys_append ?_ (keys_optStrField (by decide))
  refine keys_append ?_ (keys_optStrField (by decide))
  refine keys_append ?_ (keys_optStrField (by decide))
  refine keys_append ?_ (keys_optStrField (by decide))
  refine keys_append ?_ (keys_optStrField (by decide))
  refine keys_append ?_ (keys_optIntField (by decide))
  refine keys_append ?_ (keys_optIntField (by decide))
  refine keys_append ?_ (keys_optIntField (by decide))
  refine keys_append ?_ (keys_optIntField (by decide))
  refine keys_append ?_ (keys_optStrField (by decide))
  refine keys_append ?_ (keys_optStrField (by decide))
  refine keys_append ?_ (keys_optStrField (by decide))
  refine keys_append ?_ (keys_optStrField (by decide))
  refine keys_append ?_ (keys_optStrField (by decide))
  refine keys_append ?_ (keys_optStrField (by decide))
  refine keys_append ?_ (keys_optStrField (by decide))
  refine keys_append ?_ (keys_bindField (by decide))
  refine keys_append ?_ (keys_bindField (by decide))
  exact keys_cons (by decide) (keys_cons (by decide) (keys_cons (by decide)
    (keys_cons (by decide) keys_nil)))

theorem oppPayload_keys_mem (a : OppArgs) (d : String) (ra rc : Option JVal) :
    ∀ kv ∈ oppPayload a d ra rc, kv.1 ∈ oppPayloadKeys := by
  unfold oppPayload
  refine keys_append ?_ (keys_bindFieldStr (by decide))
  refine keys_append ?_ (keys_bindFieldStr (by decide))
  refine keys_append ?_ (keys_optStrFieldNN (by decide))
  refine keys_append ?_ (keys_optIntField (by decide))
  refine keys_append ?_ (keys_optIntField (by decide))
  refine keys_append ?_ (keys_optIntField (by decide))
  refine keys_append ?_ (keys_optIntField (by decide))
  refine keys_append ?_ (keys_optIntField (by decide))
  refine keys_append ?_ (keys_optIntField (by decide))
  refine keys_append ?_ (keys_optIntField (by decide))
  refine keys_append ?_ (keys_optIntField (by decide))
  refine keys_append ?_ (keys_optBoolField (by decide))
  refine keys_append ?_ (keys_optBoolField (by decide))
  refine keys_append ?_ (keys_optBoolField (by decide))
  refine keys_append ?_ (keys_optStrField (by decide))
  refine keys_append ?_ (keys_optStrField (by decide))
  refine keys_append ?_ (keys_optStrField (by decide))
  exact keys_cons (by decide) (keys_cons (by decide) (keys_cons (by decide) keys_nil))


/-! ## lookup? chain lemmas (for C4/C5) -/

theorem lookup?_cons_ne {k k' : String} {v : JVal} {d : Dict} (h : ¬ k = k') :
    lookup? ((k, v) :: d) k' = lookup? d k' := by
  have he : lookup? ((k, v) :: d) k' = if k = k' then some v else lookup? d k' := rfl
  rw [he, if_neg h]

theorem lookup?_cons_eq {k : String} {v : JVal} {d : Dict} :
    lookup? ((k, v) :: d) k = some v := by
  have he : lookup? ((k, v) :: d) k = if k = k then some v else lookup? d k := rfl
  rw [he, if_pos rfl]

theorem lookup?_append_none {d1 d2 : Dict} {k : String} (h1 : lookup? d1 k = none)
    (h2 : lookup? d2 k = none) : lookup? (d1 ++ d2) k = none := by
  induction d1 with
  | nil => exact h2
  | cons kv rest ih =>
    obtain ⟨k1, v1⟩ := kv
    by_cases hk : k1 = k
    · subst hk
      rw [lookup?_cons_eq] at h1
      cases h1
    · rw [List.cons_append, lookup?_cons_ne hk]
      rw [lookup?_cons_ne hk] at h1
      exact ih h1

theorem lookup?_optStrField_ne (k k' : String) (o : Option String) (h : ¬ k = k') :
    lookup? (optStrField k o) k' = none := by
  cases o with
  | none => rfl
  | some s =>
    have he : optStrField k (some s) = if s ≠ "" then [(k, JVal.str s)] else [] := rfl
    rw [he]
    by_cases hs : s ≠ ""
    · rw [if_pos hs, lookup?_cons_ne h]
      rfl
    · rw [if_neg hs]
      rfl

theorem lookup?_optStrFieldNN_ne (k k' : String) (o : Option String) (h : ¬ k = k') :
    lookup? (optStrFieldNN k o) k' = none := by
  cases o with
  | none => rfl
  | some s =>
    have he : optStrFieldNN k (some s) = [(k, JVal.str s)] := rfl
    rw [he, lookup?_cons_ne h]
    rfl

theorem lookup?_optIntField_ne (k k' : String) (o : Option Int) (h : ¬ k = k') :
    lookup? (optIntField k o) k' = none := by
  cases o with
  | none => rfl
  | some n =>
    have he : optIntField k (some n) = [(k, JVal.int n)] := rfl
    rw [he, lookup?_cons_ne h]
    rfl

theorem lookup?_optBoolField_ne (k k' : String) (o : Option Bool) (h : ¬ k = k') :
    lookup? (optBoolField k o) k' = none := by
  cases o with
  | none => rfl
  | some b =>
    have he : optBoolField k (some b) = [(k, JVal.bool b)] := rfl
    rw [he, lookup?_cons_ne h]
    rfl

theorem lookup?_bindField_ne (k k' : String) (o : Option JVal) (h : ¬ k = k') :
    lookup? (bindField k o) k' = none := by
  cases o with
  | none => rfl
  | some j =>
    have he : bindField k (some j) = if j.truthy then [(k, j)] else [] := rfl
    rw [he]
    by_cases hj : j.truthy
    · rw [if_pos hj, lookup?_cons_ne h]
      rfl
    · rw [if_neg hj]
      rfl

theorem lookup?_bindFieldStr_ne (k pre k' : String) (o : Option JVal) (h : ¬ k = k') :
    lookup? (bindFieldStr k pre o) k' = none := by
  cases o with
  | none => rfl
  | some j =>
    have he : bindFieldStr k pre (some j) =
        if j.truthy then [(k, JVal.str (pre ++ j.pystr ++ ")"))] else [] := rfl
    rw [he]
    by_cases hj : j.truthy
    · rw [if_pos hj, lookup?_cons_ne h]
      rfl
    · rw [if_neg hj]
      rfl

theorem lookup?_leadBase_ne (a : LeadArgs) (k : String) (h1 : ¬ "subject" = k)
    (h2 : ¬ "firstname" = k) (h3 : ¬ "lastname" = k) (h4 : ¬ "companyname" = k) :
    lookup? [("subject", JVal.str a.subject), ("firstname", JVal.str a.firstname),
      ("lastname", JVal.str a.lastname), ("companyname", JVal.str a.companyname)] k = none := by
  rw [lookup?_cons_ne h1, lookup?_cons_ne h2, lookup?_cons_ne h3, lookup?_cons_ne h4]
  rfl

theorem lookup?_oppBase_ne (a : OppArgs) (d : String) (k : String) (h1 : ¬ "name" = k)
    (h2 : ¬ "description" = k) (h3 : ¬ "xylos_contractverlenging" = k) :
    lookup? [("name", JVal.str a.name), ("description", JVal.str d),
      ("xylos_contractverlenging",
        match a.xylos_contractverlenging with
        | some b => JVal.bool b
        | none => JVal.bool a.contract_verlengingen)] k = none := by
  rw [lookup?_cons_ne h1, lookup?_cons_ne h2, lookup?_cons_ne h3]
  rfl

/-- C5: for every create call, every payload actually POSTed draws its keys
only from the fixed key universe (required fields, resolved foreign-key
bindings, and optional-argument fields), and an optional argument that is
absent (None) never appears as a key in the body.  For
`create_opportunity`, a POST can only happen when `description` was
supplied (the `None` default raises before any payload is built); its
`xylos_contractverlenging` key is always present because the required
`contract_verlengingen` argument seeds it. -/
theorem c5_payload_omits_absent_optionals (env : Env) (a : LeadArgs) (b : OppArgs) :
    (∀ ep p f, NetCall.post ep p f ∈ (createLead env a).1 →
        (∀ k v, (k, v) ∈ p → k ∈ leadPayloadKeys)
      ∧ (a.email = none → lookup? p "emailaddress1" = none)
      ∧ (a.phone = none → lookup? p "telephone1" = none)
      ∧ (a.mobilephone = none → lookup? p "mobilephone" = none)
      ∧ (a.jobtitle = none → lookup? p "jobtitle" = none)
      ∧ (a.websiteurl = none → lookup? p "websiteurl" = none)
      ∧ (a.description = none → lookup? p "description" = none)
      ∧ (a.estimatedclosedate = none → lookup? p "estimatedclosedate" = none)
      ∧ (a.xylos_leadsource = none → lookup? p "xylos_leadsource" = none)
      ∧ (a.xylos_leadratingcode = none → lookup? p "xylos_leadratingcode" = none)
      ∧ (a.xylos_gender = none → lookup? p "xylos_gender" = none)
      ∧ (a.xylos_language = none → lookup? p "xylos_language" = none)
      ∧ (a.xylos_jobdescriptionid = none → lookup? p "_xylos_jobdescriptionid_value" = none)
      ∧ (a.address1_line1 = none → lookup? p "address1_line1" = none)
      ∧ (a.address1_postalcode = none → lookup? p "address1_postalcode" = none)
      ∧ (a.address1_city = none → lookup? p "address1_city" = none)
      ∧ (a.address1_stateorprovince = none → lookup? p "address1_stateorprovince" = none)
      ∧ (a.address1_country = none → lookup? p "address1_country" = none)
      )
  ∧ (∀ ep p f, NetCall.post ep p f ∈ (createOpportunity env b).1 →
        (∀ k v, (k, v) ∈ p → k ∈ oppPayloadKeys)
      ∧ b.description ≠ none
      ∧ (b.estimated_close_date = none → lookup? p "estimatedclosedate" = none)
      ∧ (b.xylos_effectivefrom = none → lookup? p "xylos_effectivefrom" = none)
      ∧ (b.xylos_effectiveto = none → lookup? p "xylos_effectiveto" = none)
      ∧ (b.sca_alreadyplanned = none → lookup? p "sca_alreadyplanned" = none)
      ∧ (b.xylos_bidoffice = none → lookup? p "xylos_bidoffice" = none)
      ∧ (b.identifycustomercontacts = none → lookup? p "identifycustomercontacts" = none)
      ∧ (b.opportunityratingcode = none → lookup? p "opportunityratingcode" = none)
      ∧ (b.budgetstatus = none → lookup? p "budgetstatus" = none)
      ∧ (b.xylos_opportunitytype = none → lookup? p "xylos_opportunitytype" = none)
      ∧ (b.xylos_quotelanguage = none → lookup? p "xylos_quotelanguage" = none)
      ∧ (b.xylos_opportunitysource = none → lookup? p "xylos_opportunitysource" = none)
      ∧ (b.xylos_approach = none → lookup? p "xylos_approach" = none)
      ∧ (b.need = none → lookup? p "need" = none)
      ∧ (b.purchaseprocess = none → lookup? p "purchaseprocess" = none)
      ∧ (b.xylos_salesdossierteams = none → lookup? p "xylos_salesdossierteams" = none)
      ) := by
  constructor
  · intro ep p f hmem
    obtain ⟨ra, rc, hp, -, -⟩ := createLead_post_payload env a ep p f hmem
    refine ⟨fun k v hkv => leadPayload_keys_mem a ra rc (k, v) (by rw [hp] at hkv; exact hkv),
      ?_, ?_, ?_, ?_, ?_, ?_, ?_, ?_, ?_, ?_, ?_, ?_, ?_, ?_, ?_, ?_, ?_⟩
    · intro h
      rw [hp]
      unfold leadPayload
      refine lookup?_append_none ?_ (lookup?_optStrField_ne "address1_country" "emailaddress1" _ (by decide))
      refine lookup?_append_none ?_ (lookup?_optStrField_ne "address1_stateorprovince" "emailaddress1" _ (by decide))
      refine lookup?_append_none ?_ (lookup?_optStrField_ne "address1_city" "emailaddress1" _ (by decide))
      refine lookup?_append_none ?_ (lookup?_optStrField_ne "address1_postalcode" "emailaddress1" _ (by decide))
      refine lookup?_append_none ?_ (lookup?_optStrField_ne "address1_line1" "emailaddress1" _ (by decide))
      refine lookup?_append_none ?_ (lookup?_optStrField_ne "_xylos_jobdescriptionid_value" "emailaddress1" _ (by decide))
      refine lookup?_append_none ?_ (lookup?_optIntField_ne "xylos_language" "emailaddress1" _ (by decide))
      refine lookup?_append_none ?_ (lookup?_optIntField_ne "xylos_gender" "emailaddress1" _ (by decide))
      refine lookup?_append_none ?_ (lookup?_optIntField_ne "xylos_leadratingcode" "emailaddress1" _ (by decide))
      refine lookup?_append_none ?_ (lookup?_optIntField_ne "xylos_leadsource" "emailaddress1" _ (by decide))
      refine lookup?_append_none ?_ (lookup?_optStrField_ne "estimatedclosedate" "emailaddress1" _ (by decide))
      refine lookup?_append_none ?_ (lookup?_optStrField_ne "description" "emailaddress1" _ (by decide))
      refine lookup?_append_none ?_ (lookup?_optStrField_ne "websiteurl" "emailaddress1" _ (by decide))
      refine lookup?_append_none ?_ (lookup?_optStrField_ne "jobtitle" "emailaddress1" _ (by decide))
      refine lookup?_append_none ?_ (lookup?_optStrField_ne "mobilephone" "emailaddress1" _ (by decide))
      refine lookup?_append_none ?_ (lookup?_optStrField_ne "telephone1" "emailaddress1" _ (by decide))
      refine lookup?_append_none ?_ (by rw [h]; rfl)
      refine lookup?_append_none ?_ (lookup?_bindField_ne "_parentcontactid_value" "emailaddress1" _ (by decide))
      refine lookup?_append_none ?_ (lookup?_bindField_ne "_parentaccountid_value" "emailaddress1" _ (by decide))
      exact lookup?_leadBase_ne a "emailaddress1" (by decide) (by decide) (by decide) (by decide)
    · intro h
      rw [hp]
      unfold leadPayload
      refine lookup?_append_none ?_ (lookup?_optStrField_ne "address1_country" "telephone1" _ (by decide))
      refine lookup?_append_none ?_ (lookup?_optStrField_ne "address1_stateorprovince" "telephone1" _ (by decide))
      refine lookup?_append_none ?_ (lookup?_optStrField_ne "address1_city" "telephone1" _ (by decide))
      refine lookup?_append_none ?_ (lookup?_optStrField_ne "address1_postalcode" "telephone1" _ (by decide))
      refine lookup?_append_none ?_ (lookup?_optStrField_ne "address1_line1" "telephone1" _ (by decide))
      refine lookup?_append_none ?_ (lookup?_optStrField_ne "_xylos_jobdescriptionid_value" "telephone1" _ (by decide))
      refine lookup?_append_none ?_ (lookup?_optIntField_ne "xylos_language" "telephone1" _ (by decide))
      refine lookup?_append_none ?_ (lookup?_optIntField_ne "xylos_gender" "telephone1" _ (by decide))
      refine lookup?_append_none ?_ (lookup?_optIntField_ne "xylos_leadratingcode" "telephone1" _ (by decide))
      refine lookup?_append_none ?_ (lookup?_optIntField_ne "xylos_leadsource" "telephone1" _ (by decide))
      refine lookup?_append_none ?_ (lookup?_optStrField_ne "estimatedclosedate" "telephone1" _ (by decide))
      refine lookup?_append_none ?_ (lookup?_optStrField_ne "description" "telephone1" _ (by decide))
      refine lookup?_append_none ?_ (lookup?_optStrField_ne "websiteurl" "telephone1" _ (by decide))
      refine lookup?_append_none ?_ (lookup?_optStrField_ne "jobtitle" "telephone1" _ (by decide))
      refine lookup?_append_none ?_ (lookup?_optStrField_ne "mobilephone" "telephone1" _ (by decide))
      refine lookup?_append_none ?_ (by rw [h]; rfl)
      refine lookup?_append_none ?_ (lookup?_optStrField_ne "emailaddress1" "telephone1" _ (by decide))
      refine lookup?_append_none ?_ (lookup?_bindField_ne "_parentcontactid_value" "telephone1" _ (by decide))
      refine lookup?_append_none ?_ (lookup?_bindField_ne "_parentaccountid_value" "telephone1" _ (by decide))
      exact lookup?_leadBase_ne a "telephone1" (by decide) (by decide) (by decide) (by decide)
    · intro h
      rw [hp]
      unfold leadPayload
      refine lookup?_append_none ?_ (lookup?_optStrField_ne "address1_country" "mobilephone" _ (by decide))
      refine lookup?_append_none ?_ (lookup?_optStrField_ne "address1_stateorprovince" "mobilephone" _ (by decide))
      refine lookup?_append_none ?_ (lookup?_optStrField_ne "address1_city" "mobilephone" _ (by decide))
      refine lookup?_append_none ?_ (lookup?_optStrField_ne "address1_postalcode" "mobilephone" _ (by decide))
      refine lookup?_append_none ?_ (lookup?_optStrField_ne "address1_line1" "mobilephone" _ (by decide))
      refine lookup?_append_none ?_ (lookup?_optStrField_ne "_xylos_jobdescriptionid_value" "mobilephone" _ (by decide))
      refine lookup?_append_none ?_ (lookup?_optIntField_ne "xylos_language" "mobilephone" _ (by decide))
      refine lookup?_append_none ?_ (lookup?_optIntField_ne "xylos_gender" "mobilephone" _ (by decide))
      refine lookup?_append_none ?_ (lookup?_optIntField_ne "xylos_leadratingcode" "mobilephone" _ (by decide))
      refine lookup?_append_none ?_ (lookup?_optIntField_ne "xylos_leadsource" "mobilephone" _ (by decide))
      refine lookup?_append_none ?_ (lookup?_optStrField_ne "estimatedclosedate" "mobilephone" _ (by decide))
      refine lookup?_append_none ?_ (lookup?_optStrField_ne "description" "mobilephone" _ (by decide))
      refine lookup?_append_none ?_ (lookup?_optStrField_ne "websiteurl" "mobilephone" _ (by decide))
      refine lookup?_append_none ?_ (lookup?_optStrField_ne "jobtitle" "mobilephone" _ (by decide))
      refine lookup?_append_none ?_ (by rw [h]; rfl)
      refine lookup?_append_none ?_ (lookup?_optStrField_ne "telephone1" "mobilephone" _ (by decide))
      refine lookup?_append_none ?_ (lookup?_optStrField_ne "emailaddress1" "mobilephone" _ (by decide))
      refine lookup?_append_none ?_ (lookup?_bindField_ne "_parentcontactid_value" "mobilephone" _ (by decide))
      refine lookup?_append_none ?_ (lookup?_bindField_ne "_parentaccountid_value" "mobilephone" _ (by decide))
      exact lookup?_leadBase_ne a "mobilephone" (by decide) (by decide) (by decide) (by decide)
    · intro h
      rw [hp]
      unfold leadPayload
      refine lookup?_append_none ?_ (lookup?_optStrField_ne "address1_country" "jobtitle" _ (by decide))
      refine lookup?_append_none ?_ (lookup?_optStrField_ne "address1_stateorprovince" "jobtitle" _ (by decide))
      refine lookup?_append_none ?_ (lookup?_optStrField_ne "address1_city" "jobtitle" _ (by decide))
      refine lookup?_append_none ?_ (lookup?_optStrField_ne "address1_postalcode" "jobtitle" _ (by decide))
      refine lookup?_append_none ?_ (lookup?_optStrField_ne "address1_line1" "jobtitle" _ (by decide))
      refine lookup?_append_none ?_ (lookup?_optStrField_ne "_xylos_jobdescriptionid_value" "jobtitle" _ (by decide))
      refine lookup?_append_none ?_ (lookup?_optIntField_ne "xylos_language" "jobtitle" _ (by decide))
      refine lookup?_append_none ?_ (lookup?_optIntField_ne "xylos_gender" "jobtitle" _ (by decide))
      refine lookup?_append_none ?_ (lookup?_optIntField_ne "xylos_leadratingcode" "jobtitle" _ (by decide))
      refine lookup?_append_none ?_ (lookup?_optIntField_ne "xylos_leadsource" "jobtitle" _ (by decide))
      refine lookup?_append_none ?_ (lookup?_optStrField_ne "estimatedclosedate" "jobtitle" _ (by decide))
      refine lookup?_append_none ?_ (lookup?_optStrField_ne "description" "jobtitle" _ (by decide))
      refine lookup?_append_none ?_ (lookup?_optStrField_ne "websiteurl" "jobtitle" _ (by decide))
      refine lookup?_append_none ?_ (by rw [h]; rfl)
      refine lookup?_append_none ?_ (lookup?_optStrField_ne "mobilephone" "jobtitle" _ (by decide))
      refine lookup?_append_none ?_ (lookup?_optStrField_ne "telephone1" "jobtitle" _ (by decide))
      refine lookup?_append_none ?_ (lookup?_optStrField_ne "emailaddress1" "jobtitle" _ (by decide))
      refine lookup?_append_none ?_ (lookup?_bindField_ne "_parentcontactid_value" "jobtitle" _ (by decide))
      refine lookup?_append_none ?_ (lookup?_bindField_ne "_parentaccountid_value" "jobtitle" _ (by decide))
      exact lookup?_leadBase_ne a "jobtitle" (by decide) (by decide) (by decide) (by decide)
    · intro h
      rw [hp]
      unfold leadPayload
      refine lookup?_append_none ?_ (lookup?_optStrField_ne "address1_country" "websiteurl" _ (by decide))
      refine lookup?_append_none ?_ (lookup?_optStrField_ne "address1_stateorprovince" "websiteurl" _ (by decide))
      refine lookup?_append_none ?_ (lookup?_optStrField_ne "address1_city" "websiteurl" _ (by decide))
      refine lookup?_append_none ?_ (lookup?_optStrField_ne "address1_postalcode" "websiteurl" _ (by decide))
      refine lookup?_append_none ?_ (lookup?_optStrField_ne "address1_line1" "websiteurl" _ (by decide))
      refine lookup?_append_none ?_ (lookup?_optStrField_ne "_xylos_jobdescriptionid_value" "websiteurl" _ (by decide))
      refine lookup?_append_none ?_ (lookup?_optIntField_ne "xylos_language" "websiteurl" _ (by decide))
      refine lookup?_append_none ?_ (lookup?_optIntField_ne "xylos_gender" "websiteurl" _ (by decide))
      refine lookup?_append_none ?_ (lookup?_optIntField_ne "xylos_leadratingcode" "websiteurl" _ (by decide))
      refine lookup?_append_none ?_ (lookup?_optIntField_ne "xylos_leadsource" "websiteurl" _ (by decide))
      refine lookup?_append_none ?_ (lookup?_optStrField_ne "estimatedclosedate" "websiteurl" _ (by decide))
      refine lookup?_append_none ?_ (lookup?_optStrField_ne "description" "websiteurl" _ (by decide))
      refine lookup?_append_none ?_ (by rw [h]; rfl)
      refine lookup?_append_none ?_ (lookup?_optStrField_ne "jobtitle" "websiteurl" _ (by decide))
      refine lookup?_append_none ?_ (lookup?_optStrField_ne "mobilephone" "websiteurl" _ (by decide))
      refine lookup?_append_none ?_ (lookup?_optStrField_ne "telephone1" "websiteurl" _ (by decide))
      refine lookup?_append_none ?_ (lookup?_optStrField_ne "emailaddress1" "websiteurl" _ (by decide))
      refine lookup?_append_none ?_ (lookup?_bindField_ne "_parentcontactid_value" "websiteurl" _ (by decide))
      refine lookup?_append_none ?_ (lookup?_bindField_ne "_parentaccountid_value" "websiteurl" _ (by decide))
      exact lookup?_leadBase_ne a "websiteurl" (by decide) (by decide) (by decide) (by decide)
    · intro h
      rw [hp]
      unfold leadPayload
      refine lookup?_append_none ?_ (lookup?_optStrField_ne "address1_country" "description" _ (by decide))
      refine lookup?_append_none ?_ (lookup?_optStrField_ne "address1_stateorprovince" "description" _ (by decide))
      refine lookup?_append_none ?_ (lookup?_optStrField_ne "address1_city" "description" _ (by decide))
      refine lookup?_append_none ?_ (lookup?_optStrField_ne "address1_postalcode" "description" _ (by decide))
      refine lookup?_append_none ?_ (lookup?_optStrField_ne "address1_line1" "description" _ (by decide))
      refine lookup?_append_none ?_ (lookup?_optStrField_ne "_xylos_jobdescriptionid_value" "description" _ (by decide))
      refine lookup?_append_none ?_ (lookup?_optIntField_ne "xylos_language" "description" _ (by decide))
      refine lookup?_append_none ?_ (lookup?_optIntField_ne "xylos_gender" "description" _ (by decide))
      refine lookup?_append_none ?_ (lookup?_optIntField_ne "xylos_leadratingcode" "description" _ (by decide))
      refine lookup?_append_none ?_ (lookup?_optIntField_ne "xylos_leadsource" "description" _ (by decide))
      refine lookup?_append_none ?_ (lookup?_optStrField_ne "estimatedclosedate" "description" _ (by decide))
      refine lookup?_append_none ?_ (by rw [h]; rfl)
      refine lookup?_append_none ?_ (lookup?_optStrField_ne "websiteurl" "description" _ (by decide))
      refine lookup?_append_none ?_ (lookup?_optStrField_ne "jobtitle" "description" _ (by decide))
      refine lookup?_append_none ?_ (lookup?_optStrField_ne "mobilephone" "description" _ (by decide))
      refine lookup?_append_none ?_ (lookup?_optStrField_ne "telephone1" "description" _ (by decide))
      refine lookup?_append_none ?_ (lookup?_optStrField_ne "emailaddress1" "description" _ (by decide))
      refine lookup?_append_none ?_ (lookup?_bindField_ne "_parentcontactid_value" "description" _ (by decide))
      refine lookup?_append_none ?_ (lookup?_bindField_ne "_parentaccountid_value" "description" _ (by decide))
      exact lookup?_leadBase_ne a "description" (by decide) (by decide) (by decide) (by decide)
    · intro h
      rw [hp]
      unfold leadPayload
      refine lookup?_append_none ?_ (lookup?_optStrField_ne "address1_country" "estimatedclosedate" _ (by decide))
      refine lookup?_append_none ?_ (lookup?_optStrField_ne "address1_stateorprovince" "estimatedclosedate" _ (by decide))
      refine lookup?_append_none ?_ (lookup?_optStrField_ne "address1_city" "estimatedclosedate" _ (by decide))
      refine lookup?_append_none ?_ (lookup?_optStrField_ne "address1_postalcode" "estimatedclosedate" _ (by decide))
      refine lookup?_append_none ?_ (lookup?_optStrField_ne "address1_line1" "estimatedclosedate" _ (by decide))
      refine lookup?_append_none ?_ (lookup?_optStrField_ne "_xylos_jobdescriptionid_value" "estimatedclosedate" _ (by decide))
      refine lookup?_append_none ?_ (lookup?_optIntField_ne "xylos_language" "estimatedclosedate" _ (by decide))
      refine lookup?_append_none ?_ (lookup?_optIntField_ne "xylos_gender" "estimatedclosedate" _ (by decide))
      refine lookup?_append_none ?_ (lookup?_optIntField_ne "xylos_leadratingcode" "estimatedclosedate" _ (by decide))
      refine lookup?_append_none ?_ (lookup?_optIntField_ne "xylos_leadsource" "estimatedclosedate" _ (by decide))
      refine lookup?_append_none ?_ (by rw [h]; rfl)
      refine lookup?_append_none ?_ (lookup?_optStrField_ne "description" "estimatedclosedate" _ (by decide))
      refine lookup?_append_none ?_ (lookup?_optStrField_ne "websiteurl" "estimatedclosedate" _ (by decide))
      refine lookup?_append_none ?_ (lookup?_optStrField_ne "jobtitle" "estimatedclosedate" _ (by decide))
      refine lookup?_append_none ?_ (lookup?_optStrField_ne "mobilephone" "estimatedclosedate" _ (by decide))
      refine lookup?_append_none ?_ (lookup?_optStrField_ne "telephone1" "estimatedclosedate" _ (by decide))
      refine lookup?_append_none ?_ (lookup?_optStrField_ne "emailaddress1" "estimatedclosedate" _ (by decide))
      refine lookup?_append_none ?_ (lookup?_bindField_ne "_parentcontactid_value" "estimatedclosedate" _ (by decide))
      refine lookup?_append_none ?_ (lookup?_bindField_ne "_parentaccountid_value" "estimatedclosedate" _ (by decide))
      exact lookup?_leadBase_ne a "estimatedclosedate" (by decide) (by decide) (by decide) (by decide)
    · intro h
      rw [hp]
      unfold leadPayload
      refine lookup?_append_none ?_ (lookup?_optStrField_ne "address1_country" "xylos_leadsource" _ (by decide))
      refine lookup?_append_none ?_ (lookup?_optStrField_ne "address1_stateorprovince" "xylos_leadsource" _ (by decide))
      refine lookup?_append_none ?_ (lookup?_optStrField_ne "address1_city" "xylos_leadsource" _ (by decide))
      refine lookup?_append_none ?_ (lookup?_optStrField_ne "address1_postalcode" "xylos_leadsource" _ (by decide))
      refine lookup?_append_none ?_ (lookup?_optStrField_ne "address1_line1" "xylos_leadsource" _ (by decide))
      refine lookup?_append_none ?_ (lookup?_optStrField_ne "_xylos_jobdescriptionid_value" "xylos_leadsource" _ (by decide))
      refine lookup?_append_none ?_ (lookup?_optIntField_ne "xylos_language" "xylos_leadsource" _ (by decide))
      refine lookup?_append_none ?_ (lookup?_optIntField_ne "xylos_gender" "xylos_leadsource" _ (by decide))
      refine lookup?_append_none ?_ (lookup?_optIntField_ne "xylos_leadratingcode" "xylos_leadsource" _ (by decide))
      refine lookup?_append_none ?_ (by rw [h]; rfl)
      refine lookup?_append_none ?_ (lookup?_optStrField_ne "estimatedclosedate" "xylos_leadsource" _ (by decide))
      refine lookup?_append_none ?_ (lookup?_optStrField_ne "description" "xylos_leadsource" _ (by decide))
      refine lookup?_append_none ?_ (lookup?_optStrField_ne "websiteurl" "xylos_leadsource" _ (by decide))
      refine lookup?_append_none ?_ (lookup?_optStrField_ne "jobtitle" "xylos_leadsource" _ (by decide))
      refine lookup?_append_none ?_ (lookup?_optStrField_ne "mobilephone" "xylos_leadsource" _ (by decide))
      refine lookup?_append_none ?_ (lookup?_optStrField_ne "telephone1" "xylos_leadsource" _ (by decide))
      refine lookup?_append_none ?_ (lookup?_optStrField_ne "emailaddress1" "xylos_leadsource" _ (by decide))
      refine lookup?_append_none ?_ (lookup?_bindField_ne "_parentcontactid_value" "xylos_leadsource" _ (by decide))
      refine lookup?_append_none ?_ (lookup?_bindField_ne "_parentaccountid_value" "xylos_leadsource" _ (by decide))
      exact lookup?_leadBase_ne a "xylos_leadsource" (by decide) (by decide) (by decide) (by decide)
    · intro h
      rw [hp]
      unfold leadPayload
      refine lookup?_append_none ?_ (lookup?_optStrField_ne "address1_country" "xylos_leadratingcode" _ (by decide))
      refine lookup?_append_none ?_ (lookup?_optStrField_ne "address1_stateorprovince" "xylos_leadratingcode" _ (by decide))
      refine lookup?_append_none ?_ (lookup?_optStrField_ne "address1_city" "xylos_leadratingcode" _ (by decide))
      refine lookup?_append_none ?_ (lookup?_optStrField_ne "address1_postalcode" "xylos_leadratingcode" _ (by decide))
      refine lookup?_append_none ?_ (lookup?_optStrField_ne "address1_line1" "xylos_leadratingcode" _ (by decide))
      refine lookup?_append_none ?_ (lookup?_optStrField_ne "_xylos_jobdescriptionid_value" "xylos_leadratingcode" _ (by decide))
      refine lookup?_append_none ?_ (lookup?_optIntField_ne "xylos_language" "xylos_leadratingcode" _ (by decide))
      refine lookup?_append_none ?_ (lookup?_optIntField_ne "xylos_gender" "xylos_leadratingcode" _ (by decide))
      refine lookup?_append_none ?_ (by rw [h]; rfl)
      refine lookup?_append_none ?_ (lookup?_optIntField_ne "xylos_leadsource" "xylos_leadratingcode" _ (by decide))
      refine lookup?_append_none ?_ (lookup?_optStrField_ne "estimatedclosedate" "xylos_leadratingcode" _ (by decide))
      refine lookup?_append_none ?_ (lookup?_optStrField_ne "description" "xylos_leadratingcode" _ (by decide))
      refine lookup?_append_none ?_ (lookup?_optStrField_ne "websiteurl" "xylos_leadratingcode" _ (by decide))
      refine lookup?_append_none ?_ (lookup?_optStrField_ne "jobtitle" "xylos_leadratingcode" _ (by decide))
      refine lookup?_append_none ?_ (lookup?_optStrField_ne "mobilephone" "xylos_leadratingcode" _ (by decide))
      refine lookup?_append_none ?_ (lookup?_optStrField_ne "telephone1" "xylos_leadratingcode" _ (by decide))
      refine lookup?_append_none ?_ (lookup?_optStrField_ne "emailaddress1" "xylos_leadratingcode" _ (by decide))
      refine lookup?_append_none ?_ (lookup?_bindField_ne "_parentcontactid_value" "xylos_leadratingcode" _ (by decide))
      refine lookup?_append_none ?_ (lookup?_bindField_ne "_parentaccountid_value" "xylos_leadratingcode" _ (by decide))
      exact lookup?_leadBase_ne a "xylos_leadratingcode" (by decide) (by decide) (by decide) (by decide)
    · intro h
      rw [hp]
      unfold leadPayload
      refine lookup?_append_none ?_ (lookup?_optStrField_ne "address1_country" "xylos_gender" _ (by decide))
      refine lookup?_append_none ?_ (lookup?_optStrField_ne "address1_stateorprovince" "xylos_gender" _ (by decide))
      refine lookup?_append_none ?_ (lookup?_optStrField_ne "address1_city" "xylos_gender" _ (by decide))
      refine lookup?_append_none ?_ (lookup?_optStrField_ne "address1_postalcode" "xylos_gender" _ (by decide))
      refine lookup?_append_none ?_ (lookup?_optStrField_ne "address1_line1" "xylos_gender" _ (by decide))
      refine lookup?_append_none ?_ (lookup?_optStrField_ne "_xylos_jobdescriptionid_value" "xylos_gender" _ (by decide))
      refine lookup?_append_none ?_ (lookup?_optIntField_ne "xylos_language" "xylos_gender" _ (by decide))
      refine lookup?_append_none ?_ (by rw [h]; rfl)
      refine lookup?_append_none ?_ (lookup?_optIntField_ne "xylos_leadratingcode" "xylos_gender" _ (by decide))
      refine lookup?_append_none ?_ (lookup?_optIntField_ne "xylos_leadsource" "xylos_gender" _ (by decide))
      refine lookup?_append_none ?_ (lookup?_optStrField_ne "estimatedclosedate" "xylos_gender" _ (by decide))
      refine lookup?_append_none ?_ (lookup?_optStrField_ne "description" "xylos_gender" _ (by decide))
      refine lookup?_append_none ?_ (lookup?_optStrField_ne "websiteurl" "xylos_gender" _ (by decide))
      refine lookup?_append_none ?_ (lookup?_optStrField_ne "jobtitle" "xylos_gender" _ (by decide))
      refine lookup?_append_none ?_ (lookup?_optStrField_ne "mobilephone" "xylos_gender" _ (by decide))
      refine lookup?_append_none ?_ (lookup?_optStrField_ne "telephone1" "xylos_gender" _ (by decide))
      refine lookup?_append_none ?_ (lookup?_optStrField_ne "emailaddress1" "xylos_gender" _ (by decide))
      refine lookup?_append_none ?_ (lookup?_bindField_ne "_parentcontactid_value" "xylos_gender" _ (by decide))
      refine lookup?_append_none ?_ (lookup?_bindField_ne "_parentaccountid_value" "xylos_gender" _ (by decide))
      exact lookup?_leadBase_ne a "xylos_gender" (by decide) (by decide) (by decide) (by decide)
    · intro h
      rw [hp]
      unfold leadPayload
      refine lookup?_append_none ?_ (lookup?_optStrField_ne "address1_country" "xylos_language" _ (by decide))
      refine lookup?_append_none ?_ (lookup?_optStrField_ne "address1_stateorprovince" "xylos_language" _ (by decide))
      refine lookup?_append_none ?_ (lookup?_optStrField_ne "address1_city" "xylos_language" _ (by decide))
      refine lookup?_append_none ?_ (lookup?_optStrField_ne "address1_postalcode" "xylos_language" _ (by decide))
      refine lookup?_append_none ?_ (lookup?_optStrField_ne "address1_line1" "xylos_language" _ (by decide))
      refine lookup?_append_none ?_ (lookup?_optStrField_ne "_xylos_jobdescriptionid_value" "xylos_language" _ (by decide))
      refine lookup?_append_none ?_ (by rw [h]; rfl)
      refine lookup?_append_none ?_ (lookup?_optIntField_ne "xylos_gender" "xylos_language" _ (by decide))
      refine lookup?_append_none ?_ (lookup?_optIntField_ne "xylos_leadratingcode" "xylos_language" _ (by decide))
      refine lookup?_append_none ?_ (lookup?_optIntField_ne "xylos_leadsource" "xylos_language" _ (by decide))
      refine lookup?_append_none ?_ (lookup?_optStrField_ne "estimatedclosedate" "xylos_language" _ (by decide))
      refine lookup?_append_none ?_ (lookup?_optStrField_ne "description" "xylos_language" _ (by decide))
      refine lookup?_append_none ?_ (lookup?_optStrField_ne "websiteurl" "xylos_language" _ (by decide))
      refine lookup?_append_none ?_ (lookup?_optStrField_ne "jobtitle" "xylos_language" _ (by decide))
      refine lookup?_append_none ?_ (lookup?_optStrField_ne "mobilephone" "xylos_language" _ (by decide))
      refine lookup?_append_none ?_ (lookup?_optStrField_ne "telephone1" "xylos_language" _ (by decide))
      refine lookup?_append_none ?_ (lookup?_optStrField_ne "emailaddress1" "xylos_language" _ (by decide))
      refine lookup?_append_none ?_ (lookup?_bindField_ne "_parentcontactid_value" "xylos_language" _ (by decide))
      refine lookup?_append_none ?_ (lookup?_bindField_ne "_parentaccountid_value" "xylos_language" _ (by decide))
      exact lookup?_leadBase_ne a "xylos_language" (by decide) (by decide) (by decide) (by decide)
    · intro h
      rw [hp]
      unfold leadPayload
      refine lookup?_append_none ?_ (lookup?_optStrField_ne "address1_country" "_xylos_jobdescriptionid_value" _ (by decide))
      refine lookup?_append_none ?_ (lookup?_optStrField_ne "address1_stateorprovince" "_xylos_jobdescriptionid_value" _ (by decide))
      refine lookup?_append_none ?_ (lookup?_optStrField_ne "address1_city" "_xylos_jobdescriptionid_value" _ (by decide))
      refine lookup?_append_none ?_ (lookup?_optStrField_ne "address1_postalcode" "_xylos_jobdescriptionid_value" _ (by decide))
      refine lookup?_append_none ?_ (lookup?_optStrField_ne "address1_line1" "_xylos_jobdescriptionid_value" _ (by decide))
      refine lookup?_append_none ?_ (by rw [h]; rfl)
      refine lookup?_append_none ?_ (lookup?_optIntField_ne "xylos_language" "_xylos_jobdescriptionid_value" _ (by decide))
      refine lookup?_append_none ?_ (lookup?_optIntField_ne "xylos_gender" "_xylos_jobdescriptionid_value" _ (by decide))
      refine lookup?_append_none ?_ (lookup?_optIntField_ne "xylos_leadratingcode" "_xylos_jobdescriptionid_value" _ (by decide))
      refine lookup?_append_none ?_ (lookup?_optIntField_ne "xylos_leadsource" "_xylos_jobdescriptionid_value" _ (by decide))
      refine lookup?_append_none ?_ (lookup?_optStrField_ne "estimatedclosedate" "_xylos_jobdescriptionid_value" _ (by decide))
      refine lookup?_append_none ?_ (lookup?_optStrField_ne "description" "_xylos_jobdescriptionid_value" _ (by decide))
      refine lookup?_append_none ?_ (lookup?_optStrField_ne "websiteurl" "_xylos_jobdescriptionid_value" _ (by decide))
      refine lookup?_append_none ?_ (lookup?_optStrField_ne "jobtitle" "_xylos_jobdescriptionid_value" _ (by decide))
      refine lookup?_append_none ?_ (lookup?_optStrField_ne "mobilephone" "_xylos_jobdescriptionid_value" _ (by decide))
      refine lookup?_append_none ?_ (lookup?_optStrField_ne "telephone1" "_xylos_jobdescriptionid_value" _ (by decide))
      refine lookup?_append_none ?_ (lookup?_optStrField_ne "emailaddress1" "_xylos_jobdescriptionid_value" _ (by decide))
      refine lookup?_append_none ?_ (lookup?_bindField_ne "_parentcontactid_value" "_xylos_jobdescriptionid_value" _ (by decide))
      refine lookup?_append_none ?_ (lookup?_bindField_ne "_parentaccountid_value" "_xylos_jobdescriptionid_value" _ (by decide))
      exact lookup?_leadBase_ne a "_xylos_jobdescriptionid_value" (by decide) (by decide) (by decide) (by decide)
    · intro h
      rw [hp]
      unfold leadPayload
      refine lookup?_append_none ?_ (lookup?_optStrField_ne "address1_country" "address1_line1" _ (by decide))
      refine lookup?_append_none ?_ (lookup?_optStrField_ne "address1_stateorprovince" "address1_line1" _ (by decide))
      refine lookup?_append_none ?_ (lookup?_optStrField_ne "address1_city" "address1_line1" _ (by decide))
      refine lookup?_append_none ?_ (lookup?_optStrField_ne "address1_postalcode" "address1_line1" _ (by decide))
      refine lookup?_append_none ?_ (by rw [h]; rfl)
      refine lookup?_append_none ?_ (lookup?_optStrField_ne "_xylos_jobdescriptionid_value" "address1_line1" _ (by decide))
      refine lookup?_append_none ?_ (lookup?_optIntField_ne "xylos_language" "address1_line1" _ (by decide))
      refine lookup?_append_none ?_ (lookup?_optIntField_ne "xylos_gender" "address1_line1" _ (by decide))
      refine lookup?_append_none ?_ (lookup?_optIntField_ne "xylos_leadratingcode" "address1_line1" _ (by decide))
      refine lookup?_append_none ?_ (lookup?_optIntField_ne "xylos_leadsource" "address1_line1" _ (by decide))
      refine lookup?_append_none ?_ (lookup?_optStrField_ne "estimatedclosedate" "address1_line1" _ (by decide))
      refine lookup?_append_none ?_ (lookup?_optStrField_ne "description" "address1_line1" _ (by decide))
      refine lookup?_append_none ?_ (lookup?_optStrField_ne "websiteurl" "address1_line1" _ (by decide))
      refine lookup?_append_none ?_ (lookup?_optStrField_ne "jobtitle" "address1_line1" _ (by decide))
      refine lookup?_append_none ?_ (lookup?_optStrField_ne "mobilephone" "address1_line1" _ (by decide))
      refine lookup?_append_none ?_ (lookup?_optStrField_ne "telephone1" "address1_line1" _ (by decide))
      refine lookup?_append_none ?_ (lookup?_optStrField_ne "emailaddress1" "address1_line1" _ (by decide))
      refine lookup?_append_none ?_ (lookup?_bindField_ne "_parentcontactid_value" "address1_line1" _ (by decide))
      refine lookup?_append_none ?_ (lookup?_bindField_ne "_parentaccountid_value" "address1_line1" _ (by decide))
      exact lookup?_leadBase_ne a "address1_line1" (by decide) (by decide) (by decide) (by decide)
    · intro h
      rw [hp]
      unfold leadPayload
      refine lookup?_append_none ?_ (lookup?_optStrField_ne "address1_country" "address1_postalcode" _ (by decide))
      refine lookup?_append_none ?_ (lookup?_optStrField_ne "address1_stateorprovince" "address1_postalcode" _ (by decide))
      refine lookup?_append_none ?_ (lookup?_optStrField_ne "address1_city" "address1_postalcode" _ (by decide))
      refine lookup?_append_none ?_ (by rw [h]; rfl)
      refine lookup?_append_none ?_ (lookup?_optStrField_ne "address1_line1" "address1_postalcode" _ (by decide))
      refine lookup?_append_none ?_ (lookup?_optStrField_ne "_xylos_jobdescriptionid_value" "address1_postalcode" _ (by decide))
      refine lookup?_append_none ?_ (lookup?_optIntField_ne "xylos_language" "address1_postalcode" _ (by decide))
      refine lookup?_append_none ?_ (lookup?_optIntField_ne "xylos_gender" "address1_postalcode" _ (by decide))
      refine lookup?_append_none ?_ (lookup?_optIntField_ne "xylos_leadratingcode" "address1_postalcode" _ (by decide))
      refine lookup?_append_none ?_ (lookup?_optIntField_ne "xylos_leadsource" "address1_postalcode" _ (by decide))
      refine lookup?_append_none ?_ (lookup?_optStrField_ne "estimatedclosedate" "address1_postalcode" _ (by decide))
      refine lookup?_append_none ?_ (lookup?_optStrField_ne "description" "address1_postalcode" _ (by decide))
      refine lookup?_append_none ?_ (lookup?_optStrField_ne "websiteurl" "address1_postalcode" _ (by decide))
      refine lookup?_append_none ?_ (lookup?_optStrField_ne "jobtitle" "address1_postalcode" _ (by decide))
      refine lookup?_append_none ?_ (lookup?_optStrField_ne "mobilephone" "address1_postalcode" _ (by decide))
      refine lookup?_append_none ?_ (lookup?_optStrField_ne "telephone1" "address1_postalcode" _ (by decide))
      refine lookup?_append_none ?_ (lookup?_optStrField_ne "emailaddress1" "address1_postalcode" _ (by decide))
      refine lookup?_append_none ?_ (lookup?_bindField_ne "_parentcontactid_value" "address1_postalcode" _ (by decide))
      refine lookup?_append_none ?_ (lookup?_bindField_ne "_parentaccountid_value" "address1_postalcode" _ (by decide))
      exact lookup?_leadBase_ne a "address1_postalcode" (by decide) (by decide) (by decide) (by decide)
    · intro h
      rw [hp]
      unfold leadPayload
      refine lookup?_append_none ?_ (lookup?_optStrField_ne "address1_country" "address1_city" _ (by decide))
      refine lookup?_append_none ?_ (lookup?_optStrField_ne "address1_stateorprovince" "address1_city" _ (by decide))
      refine lookup?_append_none ?_ (by rw [h]; rfl)
      refine lookup?_append_none ?_ (lookup?_optStrField_ne "address1_postalcode" "address1_city" _ (by decide))
      refine lookup?_append_none ?_ (lookup?_optStrField_ne "address1_line1" "address1_city" _ (by decide))
      refine lookup?_append_none ?_ (lookup?_optStrField_ne "_xylos_jobdescriptionid_value" "address1_city" _ (by decide))
      refine lookup?_append_none ?_ (lookup?_optIntField_ne "xylos_language" "address1_city" _ (by decide))
      refine lookup?_append_none ?_ (lookup?_optIntField_ne "xylos_gender" "address1_city" _ (by decide))
      refine lookup?_append_none ?_ (lookup?_optIntField_ne "xylos_leadratingcode" "address1_city" _ (by decide))
      refine lookup?_append_none ?_ (lookup?_optIntField_ne "xylos_leadsource" "address1_city" _ (by decide))
      refine lookup?_append_none ?_ (lookup?_optStrField_ne "estimatedclosedate" "address1_city" _ (by decide))
      refine lookup?_append_none ?_ (lookup?_optStrField_ne "description" "address1_city" _ (by decide))
      refine lookup?_append_none ?_ (lookup?_optStrField_ne "websiteurl" "address1_city" _ (by decide))
      refine lookup?_append_none ?_ (lookup?_optStrField_ne "jobtitle" "address1_city" _ (by decide))
      refine lookup?_append_none ?_ (lookup?_optStrField_ne "mobilephone" "address1_city" _ (by decide))
      refine lookup?_append_none ?_ (lookup?_optStrField_ne "telephone1" "address1_city" _ (by decide))
      refine lookup?_append_none ?_ (lookup?_optStrField_ne "emailaddress1" "address1_city" _ (by decide))
      refine lookup?_append_none ?_ (lookup?_bindField_ne "_parentcontactid_value" "address1_city" _ (by decide))
      refine lookup?_append_none ?_ (lookup?_bindField_ne "_parentaccountid_value" "address1_city" _ (by decide))
      exact lookup?_leadBase_ne a "address1_city" (by decide) (by decide) (by decide) (by decide)
    · intro h
      rw [hp]
      unfold leadPayload
      refine lookup?_append_none ?_ (lookup?_optStrField_ne "address1_country" "address1_stateorprovince" _ (by decide))
      refine lookup?_append_none ?_ (by rw [h]; rfl)
      refine lookup?_append_none ?_ (lookup?_optStrField_ne "address1_city" "address1_stateorprovince" _ (by decide))
      refine lookup?_append_none ?_ (lookup?_optStrField_ne "address1_postalcode" "address1_stateorprovince" _ (by decide))
      refine lookup?_append_none ?_ (lookup?_optStrField_ne "address1_line1" "address1_stateorprovince" _ (by decide))
      refine lookup?_append_none ?_ (lookup?_optStrField_ne "_xylos_jobdescriptionid_value" "address1_stateorprovince" _ (by decide))
      refine lookup?_append_none ?_ (lookup?_optIntField_ne "xylos_language" "address1_stateorprovince" _ (by decide))
      refine lookup?_append_none ?_ (lookup?_optIntField_ne "xylos_gender" "address1_stateorprovince" _ (by decide))
      refine lookup?_append_none ?_ (lookup?_optIntField_ne "xylos_leadratingcode" "address1_stateorprovince" _ (by decide))
      refine lookup?_append_none ?_ (lookup?_optIntField_ne "xylos_leadsource" "address1_stateorprovince" _ (by decide))
      refine lookup?_append_none ?_ (lookup?_optStrField_ne "estimatedclosedate" "address1_stateorprovince" _ (by decide))
      refine lookup?_append_none ?_ (lookup?_optStrField_ne "description" "address1_stateorprovince" _ (by decide))
      refine lookup?_append_none ?_ (lookup?_optStrField_ne "websiteurl" "address1_stateorprovince" _ (by decide))
      refine lookup?_append_none ?_ (lookup?_optStrField_ne "jobtitle" "address1_stateorprovince" _ (by decide))
      refine lookup?_append_none ?_ (lookup?_optStrField_ne "mobilephone" "address1_stateorprovince" _ (by decide))
      refine lookup?_append_none ?_ (lookup?_optStrField_ne "telephone1" "address1_stateorprovince" _ (by decide))
      refine lookup?_append_none ?_ (lookup?_optStrField_ne "emailaddress1" "address1_stateorprovince" _ (by decide))
      refine lookup?_append_none ?_ (lookup?_bindField_ne "_parentcontactid_value" "address1_stateorprovince" _ (by decide))
      refine lookup?_append_none ?_ (lookup?_bindField_ne "_parentaccountid_value" "address1_stateorprovince" _ (by decide))
      exact lookup?_leadBase_ne a "address1_stateorprovince" (by decide) (by decide) (by decide) (by decide)
    · intro h
      rw [hp]
      unfold leadPayload
      refine lookup?_append_none ?_ (by rw [h]; rfl)
      refine lookup?_append_none ?_ (lookup?_optStrField_ne "address1_stateorprovince" "address1_country" _ (by decide))
      refine lookup?_append_none ?_ (lookup?_optStrField_ne "address1_city" "address1_country" _ (by decide))
      refine lookup?_append_none ?_ (lookup?_optStrField_ne "address1_postalcode" "address1_country" _ (by decide))
      refine lookup?_append_none ?_ (lookup?_optStrField_ne "address1_line1" "address1_country" _ (by decide))
      refine lookup?_append_none ?_ (lookup?_optStrField_ne "_xylos_jobdescriptionid_value" "address1_country" _ (by decide))
      refine lookup?_append_none ?_ (lookup?_optIntField_ne "xylos_language" "address1_country" _ (by decide))
      refine lookup?_append_none ?_ (lookup?_optIntField_ne "xylos_gender" "address1_country" _ (by decide))
      refine lookup?_append_none ?_ (lookup?_optIntField_ne "xylos_leadratingcode" "address1_country" _ (by decide))
      refine lookup?_append_none ?_ (lookup?_optIntField_ne "xylos_leadsource" "address1_country" _ (by decide))
      refine lookup?_append_none ?_ (lookup?_optStrField_ne "estimatedclosedate" "address1_country" _ (by decide))
      refine lookup?_append_none ?_ (lookup?_optStrField_ne "description" "address1_country" _ (by decide))
      refine lookup?_append_none ?_ (lookup?_optStrField_ne "websiteurl" "address1_country" _ (by decide))
      refine lookup?_append_none ?_ (lookup?_optStrField_ne "jobtitle" "address1_country" _ (by decide))
      refine lookup?_append_none ?_ (lookup?_optStrField_ne "mobilephone" "address1_country" _ (by decide))
      refine lookup?_append_none ?_ (lookup?_optStrField_ne "telephone1" "address1_country" _ (by decide))
      refine lookup?_append_none ?_ (lookup?_optStrField_ne "emailaddress1" "address1_country" _ (by decide))
      refine lookup?_append_none ?_ (lookup?_bindField_ne "_parentcontactid_value" "address1_country" _ (by decide))
      refine lookup?_append_none ?_ (lookup?_bindField_ne "_parentaccountid_value" "address1_country" _ (by decide))
      exact lookup?_leadBase_ne a "address1_country" (by decide) (by decide) (by decide) (by decide)
  · intro ep p f hmem
    obtain ⟨d, ra, rc, hd, hp, -, -⟩ := createOpportunity_post_payload env b ep p f hmem
    refine ⟨fun k v hkv => oppPayload_keys_mem b d ra rc (k, v) (by rw [hp] at hkv; exact hkv),
      by simp [hd],
      ?_, ?_, ?_, ?_, ?_, ?_, ?_, ?_, ?_, ?_, ?_, ?_, ?_, ?_, ?_⟩
    · intro h
      rw [hp]
      unfold oppPayload
      refine lookup?_append_none ?_ (lookup?_bindFieldStr_ne "parentcontactid@odata.bind" "/contacts(" "estimatedclosedate" _ (by decide))
      refine lookup?_append_none ?_ (lookup?_bindFieldStr_ne "customerid_account@odata.bind" "/accounts(" "estimatedclosedate" _ (by decide))
      refine lookup?_append_none ?_ (lookup?_optStrFieldNN_ne "xylos_salesdossierteams" "estimatedclosedate" _ (by decide))
      refine lookup?_append_none ?_ (lookup?_optIntField_ne "purchaseprocess" "estimatedclosedate" _ (by decide))
      refine lookup?_append_none ?_ (lookup?_optIntField_ne "need" "estimatedclosedate" _ (by decide))
      refine lookup?_append_none ?_ (lookup?_optIntField_ne "xylos_approach" "estimatedclosedate" _ (by decide))
      refine lookup?_append_none ?_ (lookup?_optIntField_ne "xylos_opportunitysource" "estimatedclosedate" _ (by decide))
      refine lookup?_append_none ?_ (lookup?_optIntField_ne "xylos_quotelanguage" "estimatedclosedate" _ (by decide))
      refine lookup?_append_none ?_ (lookup?_optIntField_ne "xylos_opportunitytype" "estimatedclosedate" _ (by decide))
      refine lookup?_append_none ?_ (lookup?_optIntField_ne "budgetstatus" "estimatedclosedate" _ (by decide))
      refine lookup?_append_none ?_ (lookup?_optIntField_ne "opportunityratingcode" "estimatedclosedate" _ (by decide))
      refine lookup?_append_none ?_ (lookup?_optBoolField_ne "identifycustomercontacts" "estimatedclosedate" _ (by decide))
      refine lookup?_append_none ?_ (lookup?_optBoolField_ne "xylos_bidoffice" "estimatedclosedate" _ (by decide))
      refine lookup?_append_none ?_ (lookup?_optBoolField_ne "sca_alreadyplanned" "estimatedclosedate" _ (by decide))
      refine lookup?_append_none ?_ (lookup?_optStrField_ne "xylos_effectiveto" "estimatedclosedate" _ (by decide))
      refine lookup?_append_none ?_ (lookup?_optStrField_ne "xylos_effectivefrom" "estimatedclosedate" _ (by decide))
      refine lookup?_append_none ?_ (by rw [h]; rfl)
      exact lookup?_oppBase_ne b d "estimatedclosedate" (by decide) (by decide) (by decide)
    · intro h
      rw [hp]
      unfold oppPayload
      refine lookup?_append_none ?_ (lookup?_bindFieldStr_ne "parentcontactid@odata.bind" "/contacts(" "xylos_effectivefrom" _ (by decide))
      refine lookup?_append_none ?_ (lookup?_bindFieldStr_ne "customerid_account@odata.bind" "/accounts(" "xylos_effectivefrom" _ (by decide))
      refine lookup?_append_none ?_ (lookup?_optStrFieldNN_ne "xylos_salesdossierteams" "xylos_effectivefrom" _ (by decide))
      refine lookup?_append_none ?_ (lookup?_optIntField_ne "purchaseprocess" "xylos_effectivefrom" _ (by decide))
      refine lookup?_append_none ?_ (lookup?_optIntField_ne "need" "xylos_effectivefrom" _ (by decide))
      refine lookup?_append_none ?_ (lookup?_optIntField_ne "xylos_approach" "xylos_effectivefrom" _ (by decide))
      refine lookup?_append_none ?_ (lookup?_optIntField_ne "xylos_opportunitysource" "xylos_effectivefrom" _ (by decide))
      refine lookup?_append_none ?_ (lookup?_optIntField_ne "xylos_quotelanguage" "xylos_effectivefrom" _ (by decide))
      refine lookup?_append_none ?_ (lookup?_optIntField_ne "xylos_opportunitytype" "xylos_effectivefrom" _ (by decide))
      refine lookup?_append_none ?_ (lookup?_optIntField_ne "budgetstatus" "xylos_effectivefrom" _ (by decide))
      refine lookup?_append_none ?_ (lookup?_optIntField_ne "opportunityratingcode" "xylos_effectivefrom" _ (by decide))
      refine lookup?_append_none ?_ (lookup?_optBoolField_ne "identifycustomercontacts" "xylos_effectivefrom" _ (by decide))
      refine lookup?_append_none ?_ (lookup?_optBoolField_ne "xylos_bidoffice" "xylos_effectivefrom" _ (by decide))
      refine lookup?_append_none ?_ (lookup?_optBoolField_ne "sca_alreadyplanned" "xylos_effectivefrom" _ (by decide))
      refine lookup?_append_none ?_ (lookup?_optStrField_ne "xylos_effectiveto" "xylos_effectivefrom" _ (by decide))
      refine lookup?_append_none ?_ (by rw [h]; rfl)
      refine lookup?_append_none ?_ (lookup?_optStrField_ne "estimatedclosedate" "xylos_effectivefrom" _ (by decide))
      exact lookup?_oppBase_ne b d "xylos_effectivefrom" (by decide) (by decide) (by decide)
    · intro h
      rw [hp]
      unfold oppPayload
      refine lookup?_append_none ?_ (lookup?_bindFieldStr_ne "parentcontactid@odata.bind" "/contacts(" "xylos_effectiveto" _ (by decide))
      refine lookup?_append_none ?_ (lookup?_bindFieldStr_ne "customerid_account@odata.bind" "/accounts(" "xylos_effectiveto" _ (by decide))
      refine lookup?_append_none ?_ (lookup?_optStrFieldNN_ne "xylos_salesdossierteams" "xylos_effectiveto" _ (by decide))
      refine lookup?_append_none ?_ (lookup?_optIntField_ne "purchaseprocess" "xylos_effectiveto" _ (by decide))
      refine lookup?_append_none ?_ (lookup?_optIntField_ne "need" "xylos_effectiveto" _ (by decide))
      refine lookup?_append_none ?_ (lookup?_optIntField_ne "xylos_approach" "xylos_effectiveto" _ (by decide))
      refine lookup?_append_none ?_ (lookup?_optIntField_ne "xylos_opportunitysource" "xylos_effectiveto" _ (by decide))
      refine lookup?_append_none ?_ (lookup?_optIntField_ne "xylos_quotelanguage" "xylos_effectiveto" _ (by decide))
      refine lookup?_append_none ?_ (lookup?_optIntField_ne "xylos_opportunitytype" "xylos_effectiveto" _ (by decide))
      refine lookup?_append_none ?_ (lookup?_optIntField_ne "budgetstatus" "xylos_effectiveto" _ (by decide))
      refine lookup?_append_none ?_ (lookup?_optIntField_ne "opportunityratingcode" "xylos_effectiveto" _ (by decide))
      refine lookup?_append_none ?_ (lookup?_optBoolField_ne "identifycustomercontacts" "xylos_effectiveto" _ (by decide))
      refine lookup?_append_none ?_ (lookup?_optBoolField_ne "xylos_bidoffice" "xylos_effectiveto" _ (by decide))
      refine lookup?_append_none ?_ (lookup?_optBoolField_ne "sca_alreadyplanned" "xylos_effectiveto" _ (by decide))
      refine lookup?_append_none ?_ (by rw [h]; rfl)
      refine lookup?_append_none ?_ (lookup?_optStrField_ne "xylos_effectivefrom" "xylos_effectiveto" _ (by decide))
      refine lookup?_append_none ?_ (lookup?_optStrField_ne "estimatedclosedate" "xylos_effectiveto" _ (by decide))
      exact lookup?_oppBase_ne b d "xylos_effectiveto" (by decide) (by decide) (by decide)
    · intro h
      rw [hp]
      unfold oppPayload
      refine lookup?_append_none ?_ (lookup?_bindFieldStr_ne "parentcontactid@odata.bind" "/contacts(" "sca_alreadyplanned" _ (by decide))
      refine lookup?_append_none ?_ (lookup?_bindFieldStr_ne "customerid_account@odata.bind" "/accounts(" "sca_alreadyplanned" _ (by decide))
      refine lookup?_append_none ?_ (lookup?_optStrFieldNN_ne "xylos_salesdossierteams" "sca_alreadyplanned" _ (by decide))
      refine lookup?_append_none ?_ (lookup?_optIntField_ne "purchaseprocess" "sca_alreadyplanned" _ (by decide))
      refine lookup?_append_none ?_ (lookup?_optIntField_ne "need" "sca_alreadyplanned" _ (by decide))
      refine lookup?_append_none ?_ (lookup?_optIntField_ne "xylos_approach" "sca_alreadyplanned" _ (by decide))
      refine lookup?_append_none ?_ (lookup?_optIntField_ne "xylos_opportunitysource" "sca_alreadyplanned" _ (by decide))
      refine lookup?_append_none ?_ (lookup?_optIntField_ne "xylos_quotelanguage" "sca_alreadyplanned" _ (by decide))
      refine lookup?_append_none ?_ (lookup?_optIntField_ne "xylos_opportunitytype" "sca_alreadyplanned" _ (by decide))
      refine lookup?_append_none ?_ (lookup?_optIntField_ne "budgetstatus" "sca_alreadyplanned" _ (by decide))
      refine lookup?_append_none ?_ (lookup?_optIntField_ne "opportunityratingcode" "sca_alreadyplanned" _ (by decide))
      refine lookup?_append_none ?_ (lookup?_optBoolField_ne "identifycustomercontacts" "sca_alreadyplanned" _ (by decide))
      refine lookup?_append_none ?_ (lookup?_optBoolField_ne "xylos_bidoffice" "sca_alreadyplanned" _ (by decide))
      refine lookup?_append_none ?_ (by rw [h]; rfl)
      refine lookup?_append_none ?_ (lookup?_optStrField_ne "xylos_effectiveto" "sca_alreadyplanned" _ (by decide))
      refine lookup?_append_none ?_ (lookup?_optStrField_ne "xylos_effectivefrom" "sca_alreadyplanned" _ (by decide))
      refine lookup?_append_none ?_ (lookup?_optStrField_ne "estimatedclosedate" "sca_alreadyplanned" _ (by decide))
      exact lookup?_oppBase_ne b d "sca_alreadyplanned" (by decide) (by decide) (by decide)
    · intro h
      rw [hp]
      unfold oppPayload
      refine lookup?_append_none ?_ (lookup?_bindFieldStr_ne "parentcontactid@odata.bind" "/contacts(" "xylos_bidoffice" _ (by decide))
      refine lookup?_append_none ?_ (lookup?_bindFieldStr_ne "customerid_account@odata.bind" "/accounts(" "xylos_bidoffice" _ (by decide))
      refine lookup?_append_none ?_ (lookup?_optStrFieldNN_ne "xylos_salesdossierteams" "xylos_bidoffice" _ (by decide))
      refine lookup?_append_none ?_ (lookup?_optIntField_ne "purchaseprocess" "xylos_bidoffice" _ (by decide))
      refine lookup?_append_none ?_ (lookup?_optIntField_ne "need" "xylos_bidoffice" _ (by decide))
      refine lookup?_append_none ?_ (lookup?_optIntField_ne "xylos_approach" "xylos_bidoffice" _ (by decide))
      refine lookup?_append_none ?_ (lookup?_optIntField_ne "xylos_opportunitysource" "xylos_bidoffice" _ (by decide))
      refine lookup?_append_none ?_ (lookup?_optIntField_ne "xylos_quotelanguage" "xylos_bidoffice" _ (by decide))
      refine lookup?_append_none ?_ (lookup?_optIntField_ne "xylos_opportunitytype" "xylos_bidoffice" _ (by decide))
      refine lookup?_append_none ?_ (lookup?_optIntField_ne "budgetstatus" "xylos_bidoffice" _ (by decide))
      refine lookup?_append_none ?_ (lookup?_optIntField_ne "opportunityratingcode" "xylos_bidoffice" _ (by decide))
      refine lookup?_append_none ?_ (lookup?_optBoolField_ne "identifycustomercontacts" "xylos_bidoffice" _ (by decide))
      refine lookup?_append_none ?_ (by rw [h]; rfl)
      refine lookup?_append_none ?_ (lookup?_optBoolField_ne "sca_alreadyplanned" "xylos_bidoffice" _ (by decide))
      refine lookup?_append_none ?_ (lookup?_optStrField_ne "xylos_effectiveto" "xylos_bidoffice" _ (by decide))
      refine lookup?_append_none ?_ (lookup?_optStrField_ne "xylos_effectivefrom" "xylos_bidoffice" _ (by decide))
      refine lookup?_append_none ?_ (lookup?_optStrField_ne "estimatedclosedate" "xylos_bidoffice" _ (by decide))
      exact lookup?_oppBase_ne b d "xylos_bidoffice" (by decide) (by decide) (by decide)
    · intro h
      rw [hp]
      unfold oppPayload
      refine lookup?_append_none ?_ (lookup?_bindFieldStr_ne "parentcontactid@odata.bind" "/contacts(" "identifycustomercontacts" _ (by decide))
      refine lookup?_append_none ?_ (lookup?_bindFieldStr_ne "customerid_account@odata.bind" "/accounts(" "identifycustomercontacts" _ (by decide))
      refine lookup?_append_none ?_ (lookup?_optStrFieldNN_ne "xylos_salesdossierteams" "identifycustomercontacts" _ (by decide))
      refine lookup?_append_none ?_ (lookup?_optIntField_ne "purchaseprocess" "identifycustomercontacts" _ (by decide))
      refine lookup?_append_none ?_ (lookup?_optIntField_ne "need" "identifycustomercontacts" _ (by decide))
      refine lookup?_append_none ?_ (lookup?_optIntField_ne "xylos_approach" "identifycustomercontacts" _ (by decide))
      refine lookup?_append_none ?_ (lookup?_optIntField_ne "xylos_opportunitysource" "identifycustomercontacts" _ (by decide))
      refine lookup?_append_none ?_ (lookup?_optIntField_ne "xylos_quotelanguage" "identifycustomercontacts" _ (by decide))
      refine lookup?_append_none ?_ (lookup?_optIntField_ne "xylos_opportunitytype" "identifycustomercontacts" _ (by decide))
      refine lookup?_append_none ?_ (lookup?_optIntField_ne "budgetstatus" "identifycustomercontacts" _ (by decide))
      refine lookup?_append_none ?_ (lookup?_optIntField_ne "opportunityratingcode" "identifycustomercontacts" _ (by decide))
      refine lookup?_append_none ?_ (by rw [h]; rfl)
      refine lookup?_append_none ?_ (lookup?_optBoolField_ne "xylos_bidoffice" "identifycustomercontacts" _ (by decide))
      refine lookup?_append_none ?_ (lookup?_optBoolField_ne "sca_alreadyplanned" "identifycustomercontacts" _ (by decide))
      refine lookup?_append_none ?_ (lookup?_optStrField_ne "xylos_effectiveto" "identifycustomercontacts" _ (by decide))
      refine lookup?_append_none ?_ (lookup?_optStrField_ne "xylos_effectivefrom" "identifycustomercontacts" _ (by decide))
      refine lookup?_append_none ?_ (lookup?_optStrField_ne "estimatedclosedate" "identifycustomercontacts" _ (by decide))
      exact lookup?_oppBase_ne b d "identifycustomercontacts" (by decide) (by decide) (by decide)
    · intro h
      rw [hp]
      unfold oppPayload
      refine lookup?_append_none ?_ (lookup?_bindFieldStr_ne "parentcontactid@odata.bind" "/contacts(" "opportunityratingcode" _ (by decide))
      refine lookup?_append_none ?_ (lookup?_bindFieldStr_ne "customerid_account@odata.bind" "/accounts(" "opportunityratingcode" _ (by decide))
      refine lookup?_append_none ?_ (lookup?_optStrFieldNN_ne "xylos_salesdossierteams" "opportunityratingcode" _ (by decide))
      refine lookup?_append_none ?_ (lookup?_optIntField_ne "purchaseprocess" "opportunityratingcode" _ (by decide))
      refine lookup?_append_none ?_ (lookup?_optIntField_ne "need" "opportunityratingcode" _ (by decide))
      refine lookup?_append_none ?_ (lookup?_optIntField_ne "xylos_approach" "opportunityratingcode" _ (by decide))
      refine lookup?_append_none ?_ (lookup?_optIntField_ne "xylos_opportunitysource" "opportunityratingcode" _ (by decide))
      refine lookup?_append_none ?_ (lookup?_optIntField_ne "xylos_quotelanguage" "opportunityratingcode" _ (by decide))
      refine lookup?_append_none ?_ (lookup?_optIntField_ne "xylos_opportunitytype" "opportunityratingcode" _ (by decide))
      refine lookup?_append_none ?_ (lookup?_optIntField_ne "budgetstatus" "opportunityratingcode" _ (by decide))
      refine lookup?_append_none ?_ (by rw [h]; rfl)
      refine lookup?_append_none ?_ (lookup?_optBoolField_ne "identifycustomercontacts" "opportunityratingcode" _ (by decide))
      refine lookup?_append_none ?_ (lookup?_optBoolField_ne "xylos_bidoffice" "opportunityratingcode" _ (by decide))
      refine lookup?_append_none ?_ (lookup?_optBoolField_ne "sca_alreadyplanned" "opportunityratingcode" _ (by decide))
      refine lookup?_append_none ?_ (lookup?_optStrField_ne "xylos_effectiveto" "opportunityratingcode" _ (by decide))
      refine lookup?_append_none ?_ (lookup?_optStrField_ne "xylos_effectivefrom" "opportunityratingcode" _ (by decide))
      refine lookup?_append_none ?_ (lookup?_optStrField_ne "estimatedclosedate" "opportunityratingcode" _ (by decide))
      exact lookup?_oppBase_ne b d "opportunityratingcode" (by decide) (by decide) (by decide)
    · intro h
      rw [hp]
      unfold oppPayload
      refine lookup?_append_none ?_ (lookup?_bindFieldStr_ne "parentcontactid@odata.bind" "/contacts(" "budgetstatus" _ (by decide))
      refine lookup?_append_none ?_ (lookup?_bindFieldStr_ne "customerid_account@odata.bind" "/accounts(" "budgetstatus" _ (by decide))
      refine lookup?_append_none ?_ (lookup?_optStrFieldNN_ne "xylos_salesdossierteams" "budgetstatus" _ (by decide))
      refine lookup?_append_none ?_ (lookup?_optIntField_ne "purchaseprocess" "budgetstatus" _ (by decide))
      refine lookup?_append_none ?_ (lookup?_optIntField_ne "need" "budgetstatus" _ (by decide))
      refine lookup?_append_none ?_ (lookup?_optIntField_ne "xylos_approach" "budgetstatus" _ (by decide))
      refine lookup?_append_none ?_ (lookup?_optIntField_ne "xylos_opportunitysource" "budgetstatus" _ (by decide))
      refine lookup?_append_none ?_ (lookup?_optIntField_ne "xylos_quotelanguage" "budgetstatus" _ (by decide))
      refine lookup?_append_none ?_ (lookup?_optIntField_ne "xylos_opportunitytype" "budgetstatus" _ (by decide))
      refine lookup?_append_none ?_ (by rw [h]; rfl)
      refine lookup?_append_none ?_ (lookup?_optIntField_ne "opportunityratingcode" "budgetstatus" _ (by decide))
      refine lookup?_append_none ?_ (lookup?_optBoolField_ne "identifycustomercontacts" "budgetstatus" _ (by decide))
      refine lookup?_append_none ?_ (lookup?_optBoolField_ne "xylos_bidoffice" "budgetstatus" _ (by decide))
      refine lookup?_append_none ?_ (lookup?_optBoolField_ne "sca_alreadyplanned" "budgetstatus" _ (by decide))
      refine lookup?_append_none ?_ (lookup?_optStrField_ne "xylos_effectiveto" "budgetstatus" _ (by decide))
      refine lookup?_append_none ?_ (lookup?_optStrField_ne "xylos_effectivefrom" "budgetstatus" _ (by decide))
      refine lookup?_append_none ?_ (lookup?_optStrField_ne "estimatedclosedate" "budgetstatus" _ (by decide))
      exact lookup?_oppBase_ne b d "budgetstatus" (by decide) (by decide) (by decide)
    · intro h
      rw [hp]
      unfold oppPayload
      refine lookup?_append_none ?_ (lookup?_bindFieldStr_ne "parentcontactid@odata.bind" "/contacts(" "xylos_opportunitytype" _ (by decide))
      refine lookup?_append_none ?_ (lookup?_bindFieldStr_ne "customerid_account@odata.bind" "/accounts(" "xylos_opportunitytype" _ (by decide))
      refine lookup?_append_none ?_ (lookup?_optStrFieldNN_ne "xylos_salesdossierteams" "xylos_opportunitytype" _ (by decide))
      refine lookup?_append_none ?_ (lookup?_optIntField_ne "purchaseprocess" "xylos_opportunitytype" _ (by decide))
      refine lookup?_append_none ?_ (lookup?_optIntField_ne "need" "xylos_opportunitytype" _ (by decide))
      refine lookup?_append_none ?_ (lookup?_optIntField_ne "xylos_approach" "xylos_opportunitytype" _ (by decide))
      refine lookup?_append_none ?_ (lookup?_optIntField_ne "xylos_opportunitysource" "xylos_opportunitytype" _ (by decide))
      refine lookup?_append_none ?_ (lookup?_optIntField_ne "xylos_quotelanguage" "xylos_opportunitytype" _ (by decide))
      refine lookup?_append_none ?_ (by rw [h]; rfl)
      refine lookup?_append_none ?_ (lookup?_optIntField_ne "budgetstatus" "xylos_opportunitytype" _ (by decide))
      refine lookup?_append_none ?_ (lookup?_optIntField_ne "opportunityratingcode" "xylos_opportunitytype" _ (by decide))
      refine lookup?_append_none ?_ (lookup?_optBoolField_ne "identifycustomercontacts" "xylos_opportunitytype" _ (by decide))
      refine lookup?_append_none ?_ (lookup?_optBoolField_ne "xylos_bidoffice" "xylos_opportunitytype" _ (by decide))
      refine lookup?_append_none ?_ (lookup?_optBoolField_ne "sca_alreadyplanned" "xylos_opportunitytype" _ (by decide))
      refine lookup?_append_none ?_ (lookup?_optStrField_ne "xylos_effectiveto" "xylos_opportunitytype" _ (by decide))
      refine lookup?_append_none ?_ (lookup?_optStrField_ne "xylos_effectivefrom" "xylos_opportunitytype" _ (by decide))
      refine lookup?_append_none ?_ (lookup?_optStrField_ne "estimatedclosedate" "xylos_opportunitytype" _ (by decide))
      exact lookup?_oppBase_ne b d "xylos_opportunitytype" (by decide) (by decide) (by decide)
    · intro h
      rw [hp]
      unfold oppPayload
      refine lookup?_append_none ?_ (lookup?_bindFieldStr_ne "parentcontactid@odata.bind" "/contacts(" "xylos_quotelanguage" _ (by decide))
      refine lookup?_append_none ?_ (lookup?_bindFieldStr_ne "customerid_account@odata.bind" "/accounts(" "xylos_quotelanguage" _ (by decide))
      refine lookup?_append_none ?_ (lookup?_optStrFieldNN_ne "xylos_salesdossierteams" "xylos_quotelanguage" _ (by decide))
      refine lookup?_append_none ?_ (lookup?_optIntField_ne "purchaseprocess" "xylos_quotelanguage" _ (by decide))
      refine lookup?_append_none ?_ (lookup?_optIntField_ne "need" "xylos_quotelanguage" _ (by decide))
      refine lookup?_append_none ?_ (lookup?_optIntField_ne "xylos_approach" "xylos_quotelanguage" _ (by decide))
      refine lookup?_append_none ?_ (lookup?_optIntField_ne "xylos_opportunitysource" "xylos_quotelanguage" _ (by decide))
      refine lookup?_append_none ?_ (by rw [h]; rfl)
      refine lookup?_append_none ?_ (lookup?_optIntField_ne "xylos_opportunitytype" "xylos_quotelanguage" _ (by decide))
      refine lookup?_append_none ?_ (lookup?_optIntField_ne "budgetstatus" "xylos_quotelanguage" _ (by decide))
      refine lookup?_append_none ?_ (lookup?_optIntField_ne "opportunityratingcode" "xylos_quotelanguage" _ (by decide))
      refine lookup?_append_none ?_ (lookup?_optBoolField_ne "identifycustomercontacts" "xylos_quotelanguage" _ (by decide))
      refine lookup?_append_none ?_ (lookup?_optBoolField_ne "xylos_bidoffice" "xylos_quotelanguage" _ (by decide))
      refine lookup?_append_none ?_ (lookup?_optBoolField_ne "sca_alreadyplanned" "xylos_quotelanguage" _ (by decide))
      refine lookup?_append_none ?_ (lookup?_optStrField_ne "xylos_effectiveto" "xylos_quotelanguage" _ (by decide))
      refine lookup?_append_none ?_ (lookup?_optStrField_ne "xylos_effectivefrom" "xylos_quotelanguage" _ (by decide))
      refine lookup?_append_none ?_ (lookup?_optStrField_ne "estimatedclosedate" "xylos_quotelanguage" _ (by decide))
      exact lookup?_oppBase_ne b d "xylos_quotelanguage" (by decide) (by decide) (by decide)
    · intro h
      rw [hp]
      unfold oppPayload
      refine lookup?_append_none ?_ (lookup?_bindFieldStr_ne "parentcontactid@odata.bind" "/contacts(" "xylos_opportunitysource" _ (by decide))
      refine lookup?_append_none ?_ (lookup?_bindFieldStr_ne "customerid_account@odata.bind" "/accounts(" "xylos_opportunitysource" _ (by decide))
      refine lookup?_append_none ?_ (lookup?_optStrFieldNN_ne "xylos_salesdossierteams" "xylos_opportunitysource" _ (by decide))
      refine lookup?_append_none ?_ (lookup?_optIntField_ne "purchaseprocess" "xylos_opportunitysource" _ (by decide))
      refine lookup?_append_none ?_ (lookup?_optIntField_ne "need" "xylos_opportunitysource" _ (by decide))
      refine lookup?_append_none ?_ (lookup?_optIntField_ne "xylos_approach" "xylos_opportunitysource" _ (by decide))
      refine lookup?_append_none ?_ (by rw [h]; rfl)
      refine lookup?_append_none ?_ (lookup?_optIntField_ne "xylos_quotelanguage" "xylos_opportunitysource" _ (by decide))
      refine lookup?_append_none ?_ (lookup?_optIntField_ne "xylos_opportunitytype" "xylos_opportunitysource" _ (by decide))
      refine lookup?_append_none ?_ (lookup?_optIntField_ne "budgetstatus" "xylos_opportunitysource" _ (by decide))
      refine lookup?_append_none ?_ (lookup?_optIntField_ne "opportunityratingcode" "xylos_opportunitysource" _ (by decide))
      refine lookup?_append_none ?_ (lookup?_optBoolField_ne "identifycustomercontacts" "xylos_opportunitysource" _ (by decide))
      refine lookup?_append_none ?_ (lookup?_optBoolField_ne "xylos_bidoffice" "xylos_opportunitysource" _ (by decide))
      refine lookup?_append_none ?_ (lookup?_optBoolField_ne "sca_alreadyplanned" "xylos_opportunitysource" _ (by decide))
      refine lookup?_append_none ?_ (lookup?_optStrField_ne "xylos_effectiveto" "xylos_opportunitysource" _ (by decide))
      refine lookup?_append_none ?_ (lookup?_optStrField_ne "xylos_effectivefrom" "xylos_opportunitysource" _ (by decide))
      refine lookup?_append_none ?_ (lookup?_optStrField_ne "estimatedclosedate" "xylos_opportunitysource" _ (by decide))
      exact lookup?_oppBase_ne b d "xylos_opportunitysource" (by decide) (by decide) (by decide)
    · intro h
      rw [hp]
      unfold oppPayload
      refine lookup?_append_none ?_ (lookup?_bindFieldStr_ne "parentcontactid@odata.bind" "/contacts(" "xylos_approach" _ (by decide))
      refine lookup?_append_none ?_ (lookup?_bindFieldStr_ne "customerid_account@odata.bind" "/accounts(" "xylos_approach" _ (by decide))
      refine lookup?_append_none ?_ (lookup?_optStrFieldNN_ne "xylos_salesdossierteams" "xylos_approach" _ (by decide))
      refine lookup?_append_none ?_ (lookup?_optIntField_ne "purchaseprocess" "xylos_approach" _ (by decide))
      refine lookup?_append_none ?_ (lookup?_optIntField_ne "need" "xylos_approach" _ (by decide))
      refine lookup?_append_none ?_ (by rw [h]; rfl)
      refine lookup?_append_none ?_ (lookup?_optIntField_ne "xylos_opportunitysource" "xylos_approach" _ (by decide))
      refine lookup?_append_none ?_ (lookup?_optIntField_ne "xylos_quotelanguage" "xylos_approach" _ (by decide))
      refine lookup?_append_none ?_ (lookup?_optIntField_ne "xylos_opportunitytype" "xylos_approach" _ (by decide))
      refine lookup?_append_none ?_ (lookup?_optIntField_ne "budgetstatus" "xylos_approach" _ (by decide))
      refine lookup?_append_none ?_ (lookup?_optIntField_ne "opportunityratingcode" "xylos_approach" _ (by decide))
      refine lookup?_append_none ?_ (lookup?_optBoolField_ne "identifycustomercontacts" "xylos_approach" _ (by decide))
      refine lookup?_append_none ?_ (lookup?_optBoolField_ne "xylos_bidoffice" "xylos_approach" _ (by decide))
      refine lookup?_append_none ?_ (lookup?_optBoolField_ne "sca_alreadyplanned" "xylos_approach" _ (by decide))
      refine lookup?_append_none ?_ (lookup?_optStrField_ne "xylos_effectiveto" "xylos_approach" _ (by decide))
      refine lookup?_append_none ?_ (lookup?_optStrField_ne "xylos_effectivefrom" "xylos_approach" _ (by decide))
      refine lookup?_append_none ?_ (lookup?_optStrField_ne "estimatedclosedate" "xylos_approach" _ (by decide))
      exact lookup?_oppBase_ne b d "xylos_approach" (by decide) (by decide) (by decide)
    · intro h
      rw [hp]
      unfold oppPayload
      refine lookup?_append_none ?_ (lookup?_bindFieldStr_ne "parentcontactid@odata.bind" "/contacts(" "need" _ (by decide))
      refine lookup?_append_none ?_ (lookup?_bindFieldStr_ne "customerid_account@odata.bind" "/accounts(" "need" _ (by decide))
      refine lookup?_append_none ?_ (lookup?_optStrFieldNN_ne "xylos_salesdossierteams" "need" _ (by decide))
      refine lookup?_append_none ?_ (lookup?_optIntField_ne "purchaseprocess" "need" _ (by decide))
      refine lookup?_append_none ?_ (by rw [h]; rfl)
      refine lookup?_append_none ?_ (lookup?_optIntField_ne "xylos_approach" "need" _ (by decide))
      refine lookup?_append_none ?_ (lookup?_optIntField_ne "xylos_opportunitysource" "need" _ (by decide))
      refine lookup?_append_none ?_ (lookup?_optIntField_ne "xylos_quotelanguage" "need" _ (by decide))
      refine lookup?_append_none ?_ (lookup?_optIntField_ne "xylos_opportunitytype" "need" _ (by decide))
      refine lookup?_append_none ?_ (lookup?_optIntField_ne "budgetstatus" "need" _ (by decide))
      refine lookup?_append_none ?_ (lookup?_optIntField_ne "opportunityratingcode" "need" _ (by decide))
      refine lookup?_append_none ?_ (lookup?_optBoolField_ne "identifycustomercontacts" "need" _ (by decide))
      refine lookup?_append_none ?_ (lookup?_optBoolField_ne "xylos_bidoffice" "need" _ (by decide))
      refine lookup?_append_none ?_ (lookup?_optBoolField_ne "sca_alreadyplanned" "need" _ (by decide))
      refine lookup?_append_none ?_ (lookup?_optStrField_ne "xylos_effectiveto" "need" _ (by decide))
      refine lookup?_append_none ?_ (lookup?_optStrField_ne "xylos_effectivefrom" "need" _ (by decide))
      refine lookup?_append_none ?_ (lookup?_optStrField_ne "estimatedclosedate" "need" _ (by decide))
      exact lookup?_oppBase_ne b d "need" (by decide) (by decide) (by decide)
    · intro h
      rw [hp]
      unfold oppPayload
      refine lookup?_append_none ?_ (lookup?_bindFieldStr_ne "parentcontactid@odata.bind" "/contacts(" "purchaseprocess" _ (by decide))
      refine lookup?_append_none ?_ (lookup?_bindFieldStr_ne "customerid_account@odata.bind" "/accounts(" "purchaseprocess" _ (by decide))
      refine lookup?_append_none ?_ (lookup?_optStrFieldNN_ne "xylos_salesdossierteams" "purchaseprocess" _ (by decide))
      refine lookup?_append_none ?_ (by rw [h]; rfl)
      refine lookup?_append_none ?_ (lookup?_optIntField_ne "need" "purchaseprocess" _ (by decide))
      refine lookup?_append_none ?_ (lookup?_optIntField_ne "xylos_approach" "purchaseprocess" _ (by decide))
      refine lookup?_append_none ?_ (lookup?_optIntField_ne "xylos_opportunitysource" "purchaseprocess" _ (by decide))
      refine lookup?_append_none ?_ (lookup?_optIntField_ne "xylos_quotelanguage" "purchaseprocess" _ (by decide))
      refine lookup?_append_none ?_ (lookup?_optIntField_ne "xylos_opportunitytype" "purchaseprocess" _ (by decide))
      refine lookup?_append_none ?_ (lookup?_optIntField_ne "budgetstatus" "purchaseprocess" _ (by decide))
      refine lookup?_append_none ?_ (lookup?_optIntField_ne "opportunityratingcode" "purchaseprocess" _ (by decide))
      refine lookup?_append_none ?_ (lookup?_optBoolField_ne "identifycustomercontacts" "purchaseprocess" _ (by decide))
      refine lookup?_append_none ?_ (lookup?_optBoolField_ne "xylos_bidoffice" "purchaseprocess" _ (by decide))
      refine lookup?_append_none ?_ (lookup?_optBoolField_ne "sca_alreadyplanned" "purchaseprocess" _ (by decide))
      refine lookup?_append_none ?_ (lookup?_optStrField_ne "xylos_effectiveto" "purchaseprocess" _ (by decide))
      refine lookup?_append_none ?_ (lookup?_optStrField_ne "xylos_effectivefrom" "purchaseprocess" _ (by decide))
      refine lookup?_append_none ?_ (lookup?_optStrField_ne "estimatedclosedate" "purchaseprocess" _ (by decide))
      exact lookup?_oppBase_ne b d "purchaseprocess" (by decide) (by decide) (by decide)
    · intro h
      rw [hp]
      unfold oppPayload
      refine lookup?_append_none ?_ (lookup?_bindFieldStr_ne "parentcontactid@odata.bind" "/contacts(" "xylos_salesdossierteams" _ (by decide))
      refine lookup?_append_none ?_ (lookup?_bindFieldStr_ne "customerid_account@odata.bind" "/accounts(" "xylos_salesdossierteams" _ (by decide))
      refine lookup?_append_none ?_ (by rw [h]; rfl)
      refine lookup?_append_none ?_ (lookup?_optIntField_ne "purchaseprocess" "xylos_salesdossierteams" _ (by decide))
      refine lookup?_append_none ?_ (lookup?_optIntField_ne "need" "xylos_salesdossierteams" _ (by decide))
      refine lookup?_append_none ?_ (lookup?_optIntField_ne "xylos_approach" "xylos_salesdossierteams" _ (by decide))
      refine lookup?_append_none ?_ (lookup?_optIntField_ne "xylos_opportunitysource" "xylos_salesdossierteams" _ (by decide))
      refine lookup?_append_none ?_ (lookup?_optIntField_ne "xylos_quotelanguage" "xylos_salesdossierteams" _ (by decide))
      refine lookup?_append_none ?_ (lookup?_optIntField_ne "xylos_opportunitytype" "xylos_salesdossierteams" _ (by decide))
      refine lookup?_append_none ?_ (lookup?_optIntField_ne "budgetstatus" "xylos_salesdossierteams" _ (by decide))
      refine lookup?_append_none ?_ (lookup?_optIntField_ne "opportunityratingcode" "xylos_salesdossierteams" _ (by decide))
      refine lookup?_append_none ?_ (lookup?_optBoolField_ne "identifycustomercontacts" "xylos_salesdossierteams" _ (by decide))
      refine lookup?_append_none ?_ (lookup?_optBoolField_ne "xylos_bidoffice" "xylos_salesdossierteams" _ (by decide))
      refine lookup?_append_none ?_ (lookup?_optBoolField_ne "sca_alreadyplanned" "xylos_salesdossierteams" _ (by decide))
      refine lookup?_append_none ?_ (lookup?_optStrField_ne "xylos_effectiveto" "xylos_salesdossierteams" _ (by decide))
      refine lookup?_append_none ?_ (lookup?_optStrField_ne "xylos_effectivefrom" "xylos_salesdossierteams" _ (by decide))
      refine lookup?_append_none ?_ (lookup?_optStrField_ne "estimatedclosedate" "xylos_salesdossierteams" _ (by decide))
      exact lookup?_oppBase_ne b d "xylos_salesdossierteams" (by decide) (by decide) (by decide)

theorem c5_payload_omits_absent_optionals_witness :
    lookup? (leadPayload sampleLeadArgs none none) "emailaddress1" = none
  ∧ lookup? (oppPayload sampleOppArgs "d" none none) "need" = none := by
  have h := c5_payload_omits_absent_optionals (constApiEnv (some []))
    sampleLeadArgs sampleOppArgs
  have htr1 : (createLead (constApiEnv (some [])) sampleLeadArgs).1 =
      [NetCall.post "leads" (leadPayload sampleLeadArgs none none)
        "xylos_leadidentifier"] := rfl
  have htr2 : (createOpportunity (constApiEnv (some [])) sampleOppArgs).1 =
      [NetCall.get "accounts" (searchAccountsParams "A" 1),
       NetCall.get "contacts" (searchContactsParams "C" 1),
       NetCall.post "opportunities" (oppPayload sampleOppArgs "d" none none)
        "xylos_opportunityid"] := rfl
  constructor
  · have h1 := h.1 "leads" (leadPayload sampleLeadArgs none none) "xylos_leadidentifier"
      (by rw [htr1]; exact List.mem_singleton.mpr rfl)
    exact h1.2.1 rfl
  · have h2 := h.2 "opportunities" (oppPayload sampleOppArgs "d" none none)
      "xylos_opportunityid" (by rw [htr2]; simp)
    exact h2.2.2.2.2.2.2.2.2.2.2.2.2.2.2.1 rfl


/-- C4: for a create-opportunity call (with a supplied, short-enough
description) whose account search term matches zero records, the create
still proceeds: the `customerid_account@odata.bind` binding is omitted from
every payload POSTed, and whenever the call returns a success result its
`linked_account_id` is JSON null; symmetrically for a contact search that
matches zero records (`parentcontactid@odata.bind` omitted,
`linked_contact_id` null).  The witness shows both success cases are
reachable. -/
theorem c4_resolution_soft_fail (env : Env) (a : OppArgs) (d : String)
    (hd : a.description = some d) (hlen : d.length ≤ 40) :
    (env.api "accounts" (searchAccountsParams a.account_search_term 1) = some [] →
       (∀ ep p f, NetCall.post ep p f ∈ (createOpportunity env a).1 →
          lookup? p "customerid_account@odata.bind" = none)
     ∧ (∀ r, (createOpportunity env a).2 = Except.ok r →
          lookup? r "success" = some (JVal.bool true) →
          lookup? r "linked_account_id" = some JVal.null))
  ∧ (env.api "contacts" (searchContactsParams a.contact_search_term 1) = some [] →
       (∀ ep p f, NetCall.post ep p f ∈ (createOpportunity env a).1 →
          lookup? p "parentcontactid@odata.bind" = none)
     ∧ (∀ r, (createOpportunity env a).2 = Except.ok r →
          lookup? r "success" = some (JVal.bool true) →
          lookup? r "linked_contact_id" = some JVal.null)) := by
  have hlen' : ¬ d.length > 40 := by omega
  constructor
  · intro hacc
    have hstep : (oppAccountStep env a).2 = Except.ok none := by
      unfold oppAccountStep searchAccounts
      dsimp only
      rw [hacc]
      rfl
    constructor
    · intro ep p f hmem
      unfold createOpportunity at hmem
      rw [hd] at hmem
      dsimp only at hmem
      rw [if_neg hlen', hstep] at hmem
      cases hcon : (oppContactStep env a).2 with
      | error e =>
        rw [hcon] at hmem
        simp only [List.mem_append] at hmem
        rcases hmem with hmem | hmem
        · exact absurd hmem (post_notMem_oppAccountStep env a ep p f)
        · exact absurd hmem (post_notMem_oppContactStep env a ep p f)
      | ok rc =>
        rw [hcon] at hmem
        simp only [List.mem_append, List.mem_singleton] at hmem
        rcases hmem with (hmem | hmem) | hmem
        · exact absurd hmem (post_notMem_oppAccountStep env a ep p f)
        · exact absurd hmem (post_notMem_oppContactStep env a ep p f)
        · obtain ⟨hep, hp, hf⟩ := NetCall.post.inj hmem
          rw [hp]
          unfold oppPayload
          refine lookup?_append_none ?_ (lookup?_bindFieldStr_ne "parentcontactid@odata.bind" "/contacts(" "customerid_account@odata.bind" _ (by decide))
          refine lookup?_append_none ?_ (by rfl)
          refine lookup?_append_none ?_ (lookup?_optStrFieldNN_ne "xylos_salesdossierteams" "customerid_account@odata.bind" _ (by decide))
          refine lookup?_append_none ?_ (lookup?_optIntField_ne "purchaseprocess" "customerid_account@odata.bind" _ (by decide))
          refine lookup?_append_none ?_ (lookup?_optIntField_ne "need" "customerid_account@odata.bind" _ (by decide))
          refine lookup?_append_none ?_ (lookup?_optIntField_ne "xylos_approach" "customerid_account@odata.bind" _ (by decide))
          refine lookup?_append_none ?_ (lookup?_optIntField_ne "xylos_opportunitysource" "customerid_account@odata.bind" _ (by decide))
          refine lookup?_append_none ?_ (lookup?_optIntField_ne "xylos_quotelanguage" "customerid_account@odata.bind" _ (by decide))
          refine lookup?_append_none ?_ (lookup?_optIntField_ne "xylos_opportunitytype" "customerid_account@odata.bind" _ (by decide))
          refine lookup?_append_none ?_ (lookup?_optIntField_ne "budgetstatus" "customerid_account@odata.bind" _ (by decide))
          refine lookup?_append_none ?_ (lookup?_optIntField_ne "opportunityratingcode" "customerid_account@odata.bind" _ (by decide))
          refine lookup?_append_none ?_ (lookup?_optBoolField_ne "identifycustomercontacts" "customerid_account@odata.bind" _ (by decide))
          refine lookup?_append_none ?_ (lookup?_optBoolField_ne "xylos_bidoffice" "customerid_account@odata.bind" _ (by decide))
          refine lookup?_append_none ?_ (lookup?_optBoolField_ne "sca_alreadyplanned" "customerid_account@odata.bind" _ (by decide))
          refine lookup?_append_none ?_ (lookup?_optStrField_ne "xylos_effectiveto" "customerid_account@odata.bind" _ (by decide))
          refine lookup?_append_none ?_ (lookup?_optStrField_ne "xylos_effectivefrom" "customerid_account@odata.bind" _ (by decide))
          refine lookup?_append_none ?_ (lookup?_optStrField_ne "estimatedclosedate" "customerid_account@odata.bind" _ (by decide))
          exact lookup?_oppBase_ne a d "customerid_account@odata.bind" (by decide) (by decide) (by decide)
    · intro r hr hsucc
      unfold createOpportunity at hr
      rw [hd] at hr
      dsimp only at hr
      rw [if_neg hlen', hstep] at hr
      cases hcon : (oppContactStep env a).2 with
      | error e =>
        rw [hcon] at hr
        simp only at hr
        cases hr
      | ok rc =>
        rw [hcon] at hr
        simp only at hr
        cases hpost : env.post "opportunities" (oppPayload a d none rc)
            "xylos_opportunityid" with
        | none =>
          rw [hpost] at hr
          cases hr
          rw [show lookup? (oppPostFailure a.name) "success" = some (JVal.bool false)
            from lookup?_cons_eq] at hsucc
          simp at hsucc
        | some v =>
          rw [hpost] at hr
          dsimp only at hr
          by_cases hv : v.truthy
          · rw [if_pos hv] at hr
            cases hr
            rfl
          · rw [if_neg hv] at hr
            cases hr
            rw [show lookup? (oppPostFailure a.name) "success" = some (JVal.bool false)
              from lookup?_cons_eq] at hsucc
            simp at hsucc
  · intro hconq
    have hstepC : (oppContactStep env a).2 = Except.ok none := by
      unfold oppContactStep searchContacts
      dsimp only
      rw [hconq]
      rfl
    constructor
    · intro ep p f hmem
      unfold createOpportunity at hmem
      rw [hd] at hmem
      dsimp only at hmem
      rw [if_neg hlen'] at hmem
      cases hacc2 : (oppAccountStep env a).2 with
      | error e =>
        rw [hacc2] at hmem
        exact absurd hmem (post_notMem_oppAccountStep env a ep p f)
      | ok ra =>
        rw [hacc2, hstepC] at hmem
        simp only [List.mem_append, List.mem_singleton] at hmem
        rcases hmem with (hmem | hmem) | hmem
        · exact absurd hmem (post_notMem_oppAccountStep env a ep p f)
        · exact absurd hmem (post_notMem_oppContactStep env a ep p f)
        · obtain ⟨hep, hp, hf⟩ := NetCall.post.inj hmem
          rw [hp]
          unfold oppPayload
          refine lookup?_append_none ?_ (by rfl)
          refine lookup?_append_none ?_ (lookup?_bindFieldStr_ne "customerid_account@odata.bind" "/accounts(" "parentcontactid@odata.bind" _ (by decide))
          refine lookup?_append_none ?_ (lookup?_optStrFieldNN_ne "xylos_salesdossierteams" "parentcontactid@odata.bind" _ (by decide))
          refine lookup?_append_none ?_ (lookup?_optIntField_ne "purchaseprocess" "parentcontactid@odata.bind" _ (by decide))
          refine lookup?_append_none ?_ (lookup?_optIntField_ne "need" "parentcontactid@odata.bind" _ (by decide))
          refine lookup?_append_none ?_ (lookup?_optIntField_ne "xylos_approach" "parentcontactid@odata.bind" _ (by decide))
          refine lookup?_append_none ?_ (lookup?_optIntField_ne "xylos_opportunitysource" "parentcontactid@odata.bind" _ (by decide))
          refine lookup?_append_none ?_ (lookup?_optIntField_ne "xylos_quotelanguage" "parentcontactid@odata.bind" _ (by decide))
          refine lookup?_append_none ?_ (lookup?_optIntField_ne "xylos_opportunitytype" "parentcontactid@odata.bind" _ (by decide))
          refine lookup?_append_none ?_ (lookup?_optIntField_ne "budgetstatus" "parentcontactid@odata.bind" _ (by decide))
          refine lookup?_append_none ?_ (lookup?_optIntField_ne "opportunityratingcode" "parentcontactid@odata.bind" _ (by decide))
          refine lookup?_append_none ?_ (lookup?_optBoolField_ne "identifycustomercontacts" "parentcontactid@odata.bind" _ (by decide))
          refine lookup?_append_none ?_ (lookup?_optBoolField_ne "xylos_bidoffice" "parentcontactid@odata.bind" _ (by decide))
          refine lookup?_append_none ?_ (lookup?_optBoolField_ne "sca_alreadyplanned" "parentcontactid@odata.bind" _ (by decide))
          refine lookup?_append_none ?_ (lookup?_optStrField_ne "xylos_effectiveto" "parentcontactid@odata.bind" _ (by decide))
          refine lookup?_append_none ?_ (lookup?_optStrField_ne "xylos_effectivefrom" "parentcontactid@odata.bind" _ (by decide))
          refine lookup?_append_none ?_ (lookup?_optStrField_ne "estimatedclosedate" "parentcontactid@odata.bind" _ (by decide))
          exact lookup?_oppBase_ne a d "parentcontactid@odata.bind" (by decide) (by decide) (by decide)
    · intro r hr hsucc
      unfold createOpportunity at hr
      rw [hd] at hr
      dsimp only at hr
      rw [if_neg hlen'] at hr
      cases hacc2 : (oppAccountStep env a).2 with
      | error e =>
        rw [hacc2] at hr
        simp only at hr
        cases hr
      | ok ra =>
        rw [hacc2, hstepC] at hr
        simp only at hr
        cases hpost : env.post "opportunities" (oppPayload a d ra none)
            "xylos_opportunityid" with
        | none =>
          rw [hpost] at hr
          cases hr
          rw [show lookup? (oppPostFailure a.name) "success" = some (JVal.bool false)
            from lookup?_cons_eq] at hsucc
          simp at hsucc
        | some v =>
          rw [hpost] at hr
          dsimp only at hr
          by_cases hv : v.truthy
          · rw [if_pos hv] at hr
            cases hr
            rfl
          · rw [if_neg hv] at hr
            cases hr
            rw [show lookup? (oppPostFailure a.name) "success" = some (JVal.bool false)
              from lookup?_cons_eq] at hsucc
            simp at hsucc

theorem c4_resolution_soft_fail_witness :
    lookup? (oppSuccess "N" (JVal.str "OPP-1") none (some (JVal.str "c1")))
      "linked_account_id" = some JVal.null
  ∧ lookup? (oppSuccess "N" (JVal.str "OPP-2") (some (JVal.str "a1")) none)
      "linked_contact_id" = some JVal.null := by
  have h1 := (c4_resolution_soft_fail softFailEnv sampleOppArgs "d" rfl (by decide)).1 rfl
  have h2 := (c4_resolution_soft_fail contactMissEnv sampleOppArgs "d" rfl (by decide)).2 rfl
  exact ⟨h1.2 (oppSuccess "N" (JVal.str "OPP-1") none (some (JVal.str "c1"))) rfl rfl,
         h2.2 (oppSuccess "N" (JVal.str "OPP-2") (some (JVal.str "a1")) none) rfl rfl⟩

/-! ## Server-query lemmas (for C7) -/

theorem serverQuery_top1_none (key : α → String) (db : List α) (term : String)
    (h : (serverQuery key db term 1).head? = none) :
    ∀ b ∈ db, hasSub term.data (key b).data = false := by
  intro b hb
  unfold serverQuery at h
  rw [List.head?_take, if_neg (by decide : ¬ (1 : Nat) = 0)] at h
  rw [List.head?_eq_none_iff] at h
  have hperm := List.perm_insertionSort (keyLe key)
    (db.filter (fun x => hasSub term.data (key x).data))
  rw [h] at hperm
  have hfilter : db.filter (fun x => hasSub term.data (key x).data) = [] :=
    List.Perm.eq_nil hperm.symm
  cases hcase : hasSub term.data (key b).data with
  | false => rfl
  | true =>
    have : b ∈ db.filter (fun x => hasSub term.data (key x).data) :=
      List.mem_filter.mpr ⟨hb, hcase⟩
    rw [hfilter] at this
    cases this

theorem serverQuery_top1_some (key : α → String) (db : List α) (term : String) (a : α)
    (h : (serverQuery key db term 1).head? = some a) :
    a ∈ db ∧ hasSub term.data (key a).data = true
  ∧ (∀ b ∈ db, hasSub term.data (key b).data = true →
      lexLe (key a).data (key b).data = true)
  ∧ serverQuery key db term 1 = [a] := by
  unfold serverQuery at h ⊢
  rw [List.head?_take, if_neg (by decide : ¬ (1 : Nat) = 0)] at h
  have hperm := List.perm_insertionSort (keyLe key)
    (db.filter (fun x => hasSub term.data (key x).data))
  have hsort := List.sorted_insertionSort (keyLe key)
    (db.filter (fun x => hasSub term.data (key x).data))
  obtain ⟨t, ht⟩ : ∃ t, List.insertionSort (keyLe key)
      (db.filter (fun x => hasSub term.data (key x).data)) = a :: t := by
    cases hs : List.insertionSort (keyLe key)
        (db.filter (fun x => hasSub term.data (key x).data)) with
    | nil => rw [hs] at h; cases h
    | cons x xs =>
      rw [hs] at h
      obtain rfl := Option.some.inj h
      exact ⟨xs, rfl⟩
  have hamem : a ∈ db.filter (fun x => hasSub term.data (key x).data) := by
    have ha : a ∈ List.insertionSort (keyLe key)
        (db.filter (fun x => hasSub term.data (key x).data)) := by
      rw [ht]
      exact List.mem_cons_self _ _
    exact hperm.mem_iff.mp ha
  have hmf := List.mem_filter.mp hamem
  refine ⟨hmf.1, hmf.2, ?_, ?_⟩
  · intro b hb hsub
    have hbmem : b ∈ db.filter (fun x => hasSub term.data (key x).data) :=
      List.mem_filter.mpr ⟨hb, hsub⟩
    have hb' : b ∈ List.insertionSort (keyLe key)
        (db.filter (fun x => hasSub term.data (key x).data)) := hperm.mem_iff.mpr hbmem
    rw [ht, List.mem_cons] at hb'
    rcases hb' with hb' | hb'
    · subst hb'
      exact lexLe_refl _
    · rw [ht] at hsort
      exact List.rel_of_sorted_cons hsort b hb'
  · rw [ht]
    rfl

/-- C7: for every entity-resolution step, the resolved account (contact)
reference is the record whose display-name field is alphabetically first
among the stored records whose name contains the search term (substring
containment, ordered by name ascending, top 1, first result taken), and the
binding is null when no record matches. -/
theorem c7_resolution_alphabetical_min (adb : List AccountRec) (cdb : List ContactRec)
    (aterm cterm : String) :
    (∀ x, (serverQuery AccountRec.name adb aterm 1).head? = some x →
        x ∈ adb ∧ hasSub aterm.data x.name.data = true
      ∧ (∀ b ∈ adb, hasSub aterm.data b.name.data = true →
            lexLe x.name.data b.name.data = true)
      ∧ resolveAccountId adb aterm = Except.ok (some (JVal.str x.accountid)))
  ∧ ((serverQuery AccountRec.name adb aterm 1).head? = none →
        (∀ b ∈ adb, hasSub aterm.data b.name.data = false)
      ∧ resolveAccountId adb aterm = Except.ok none)
  ∧ (∀ x, (serverQuery ContactRec.fullname cdb cterm 1).head? = some x →
        x ∈ cdb ∧ hasSub cterm.data x.fullname.data = true
      ∧ (∀ b ∈ cdb, hasSub cterm.data b.fullname.data = true →
            lexLe x.fullname.data b.fullname.data = true)
      ∧ resolveContactId cdb cterm = Except.ok (some (JVal.str x.contactid)))
  ∧ ((serverQuery ContactRec.fullname cdb cterm 1).head? = none →
        (∀ b ∈ cdb, hasSub cterm.data b.fullname.data = false)
      ∧ resolveContactId cdb cterm = Except.ok none) := by
  refine ⟨?_, ?_, ?_, ?_⟩
  · intro x hx
    obtain ⟨hmem, hsub, hmin, heq⟩ := serverQuery_top1_some AccountRec.name adb aterm x hx
    refine ⟨hmem, hsub, hmin, ?_⟩
    unfold resolveAccountId
    rw [heq]
    rfl
  · intro hx
    refine ⟨serverQuery_top1_none AccountRec.name adb aterm hx, ?_⟩
    unfold resolveAccountId
    rw [List.head?_eq_none_iff.mp hx]
    rfl
  · intro x hx
    obtain ⟨hmem, hsub, hmin, heq⟩ := serverQuery_top1_some ContactRec.fullname cdb cterm x hx
    refine ⟨hmem, hsub, hmin, ?_⟩
    unfold resolveContactId
    rw [heq]
    rfl
  · intro hx
    refine ⟨serverQuery_top1_none ContactRec.fullname cdb cterm hx, ?_⟩
    unfold resolveContactId
    rw [List.head?_eq_none_iff.mp hx]
    rfl

theorem c7_resolution_alphabetical_min_witness :
    resolveAccountId [⟨"g2", "Beta Acme"⟩, ⟨"g1", "Acme"⟩] "Acme" =
      Except.ok (some (JVal.str "g1"))
  ∧ resolveContactId [⟨"c2", "Zed"⟩, ⟨"c1", "Jane"⟩] "a" =
      Except.ok (some (JVal.str "c1")) := by
  have h := c7_resolution_alphabetical_min [⟨"g2", "Beta Acme"⟩, ⟨"g1", "Acme"⟩]
    [⟨"c2", "Zed"⟩, ⟨"c1", "Jane"⟩] "Acme" "a"
  exact ⟨(h.1 ⟨"g1", "Acme"⟩ rfl).2.2.2, (h.2.2.1 ⟨"c1", "Jane"⟩ rfl).2.2.2⟩

/-! ## Formatting totality lemmas (for C10) -/

theorem guardedInfo_ok (d : Dict) (k sep : String) :
    ∃ s, guardedInfo d k sep = Except.ok s := by
  unfold guardedInfo
  cases h : lookup? d k with
  | none =>
    refine ⟨"", ?_⟩
    have hg : pyGet d k JVal.null = JVal.null := by
      unfold pyGet
      rw [h]
      rfl
    rw [hg]
    rfl
  | some v =>
    have hg : pyGet d k JVal.null = v := by
      unfold pyGet
      rw [h]
      rfl
    by_cases ht : v.truthy
    · have hgi : getItem d k = Except.ok v := by
        unfold getItem
        rw [h]
      refine ⟨sep ++ v.pystr, ?_⟩
      rw [hg, if_pos ht, hgi]
      rfl
    · refine ⟨"", ?_⟩
      rw [hg, if_neg ht]

theorem leadLines_ok (d : Dict) (vs vf vl : JVal) (hs : lookup? d "subject" = some vs)
    (hf : lookup? d "full_name" = some vf) (hl : lookup? d "lead_id" = some vl) :
    ∃ s, leadLines d = Except.ok s := by
  obtain ⟨s1, h1⟩ := guardedInfo_ok d "email" " | "
  obtain ⟨s2, h2⟩ := guardedInfo_ok d "phone" " | "
  obtain ⟨s3, h3⟩ := guardedInfo_ok d "company_name" " | "
  have hgs : getItem d "subject" = Except.ok vs := by unfold getItem; rw [hs]
  have hgf : getItem d "full_name" = Except.ok vf := by unfold getItem; rw [hf]
  have hgl : getItem d "lead_id" = Except.ok vl := by unfold getItem; rw [hl]
  refine ⟨?w, ?_⟩
  case w => exact "  • " ++ vs.pystr ++ " (" ++ vf.pystr ++ ")" ++ s3 ++ s1 ++ s2
    ++ "\n" ++ "    ID: " ++ vl.pystr
  unfold leadLines
  rw [h1, h2, h3, hgs, hgf, hgl]

theorem accountLine_ok (d : Dict) (vn va : JVal) (hn : lookup? d "name" = some vn)
    (ha : lookup? d "account_id" = some va) :
    ∃ s, accountLine d = Except.ok s := by
  obtain ⟨s1, h1⟩ := guardedInfo_ok d "email" " |"
  obtain ⟨s2, h2⟩ := guardedInfo_ok d "phone" " | "
  have hgn : getItem d "name" = Except.ok vn := by unfold getItem; rw [hn]
  have hga : getItem d "account_id" = Except.ok va := by unfold getItem; rw [ha]
  refine ⟨?w, ?_⟩
  case w => exact "  • " ++ vn.pystr ++ " (ID: " ++ va.pystr ++ ")" ++ s1 ++ s2
    ++ accountLocationInfo d
  unfold accountLine
  rw [h1, h2, hgn, hga]

theorem contactLine_ok (d : Dict) (vf vc : JVal) (hf : lookup? d "fullname" = some vf)
    (hc : lookup? d "contact_id" = some vc) :
    ∃ s, contactLine d = Except.ok s := by
  obtain ⟨s1, h1⟩ := guardedInfo_ok d "email" " | "
  obtain ⟨s2, h2⟩ := guardedInfo_ok d "phone" " | "
  obtain ⟨s3, h3⟩ := guardedInfo_ok d "job_title" " | "
  have hgf : getItem d "fullname" = Except.ok vf := by unfold getItem; rw [hf]
  have hgc : getItem d "contact_id" = Except.ok vc := by unfold getItem; rw [hc]
  refine ⟨?w, ?_⟩
  case w => exact "  • " ++ vf.pystr ++ " (ID: " ++ vc.pystr ++ ")" ++ s3 ++ s1 ++ s2
  unfold contactLine
  rw [h1, h2, h3, hgf, hgc]

theorem leadFromRaw_line_ok (raw d : Dict) (h : leadFromRaw raw = Except.ok d) :
    ∃ s, leadLines d = Except.ok s := by
  unfold leadFromRaw at h
  cases hg : getItem raw "leadid" with
  | error e => rw [hg] at h; cases h
  | ok lid =>
    rw [hg] at h
    cases h
    exact leadLines_ok _ _ _ _ rfl rfl rfl

theorem accountFromRaw_line_ok (raw d : Dict) (h : accountFromRaw raw = Except.ok d) :
    ∃ s, accountLine d = Except.ok s := by
  unfold accountFromRaw at h
  cases hg : getItem raw "accountid" with
  | error e => rw [hg] at h; cases h
  | ok aid =>
    rw [hg] at h
    cases hn : getItem raw "name" with
    | error e => rw [hn] at h; cases h
    | ok nm =>
      rw [hn] at h
      cases h
      exact accountLine_ok _ _ _ rfl rfl

theorem contactFromRaw_line_ok (raw d : Dict) (h : contactFromRaw raw = Except.ok d) :
    ∃ s, contactLine d = Except.ok s := by
  unfold contactFromRaw at h
  cases hg : getItem raw "contactid" with
  | error e => rw [hg] at h; cases h
  | ok cid =>
    rw [hg] at h
    cases hn : getItem raw "fullname" with
    | error e => rw [hn] at h; cases h
    | ok fn =>
      rw [hn] at h
      cases h
      exact contactLine_ok _ _ _ rfl rfl

theorem format_total_aux {fromRaw : Dict → Except PyErr Dict}
    {line : Dict → Except PyErr String}
    (hline : ∀ raw d, fromRaw raw = Except.ok d → ∃ s, line d = Except.ok s)
    (resp : Option (List Dict)) (l : List Dict)
    (h : exceptMap fromRaw (resp.getD []) = Except.ok l) :
    ∃ ys, exceptMap line l = Except.ok ys := by
  apply exceptMap_ok_of_all
  intro x hx
  obtain ⟨raw, -, hraw⟩ := exceptMap_ok_forall h x hx
  exact hline raw x hraw

/-- C10: each formatting function is total on the structured lists its
search operation produces: whenever the raw-to-projection step of
`search_leads` / `search_accounts` / `search_contacts` succeeds (for any
gateway response whatsoever), formatting the resulting list returns a
report string and never raises, independent of any network call. -/
theorem c10_formatting_total_on_search_output (lr ar cr : Option (List Dict)) :
    (∀ l, leadsFrom lr = Except.ok l → ∃ s, formatLeadsOutput l = Except.ok s)
  ∧ (∀ l, accountsFrom ar = Except.ok l → ∃ s, formatAccountsOutput l = Except.ok s)
  ∧ (∀ l, contactsFrom cr = Except.ok l → ∃ s, formatContactsOutput l = Except.ok s) := by
  refine ⟨?_, ?_, ?_⟩
  · intro l h
    cases l with
    | nil => exact ⟨_, rfl⟩
    | cons d rest =>
      obtain ⟨ys, hys⟩ := format_total_aux leadFromRaw_line_ok lr (d :: rest) h
      refine ⟨String.intercalate "\n" (("Found " ++ toString (d :: rest).length
          ++ " leads:") :: ys), ?_⟩
      unfold formatLeadsOutput
      rw [hys]
      rfl
  · intro l h
    cases l with
    | nil => exact ⟨_, rfl⟩
    | cons d rest =>
      obtain ⟨ys, hys⟩ := format_total_aux accountFromRaw_line_ok ar (d :: rest) h
      refine ⟨String.intercalate "\n" (("Found " ++ toString (d :: rest).length
          ++ " accounts:") :: ys), ?_⟩
      unfold formatAccountsOutput
      rw [hys]
      rfl
  · intro l h
    cases l with
    | nil => exact ⟨_, rfl⟩
    | cons d rest =>
      obtain ⟨ys, hys⟩ := format_total_aux contactFromRaw_line_ok cr (d :: rest) h
      refine ⟨String.intercalate "\n" (("Found " ++ toString (d :: rest).length
          ++ " contacts:") :: ys), ?_⟩
      unfold formatContactsOutput
      rw [hys]
      rfl

theorem c10_formatting_total_on_search_output_witness :
    (∃ s, formatLeadsOutput [] = Except.ok s)
  ∧ (∃ s, formatAccountsOutput [] = Except.ok s)
  ∧ (∃ s, formatContactsOutput [] = Except.ok s) := by
  have h := c10_formatting_total_on_search_output (some []) none (some [])
  exact ⟨h.1 [] rfl, h.2.1 [] rfl, h.2.2 [] rfl⟩
